import Mathlib

/-!
# Verification of the xo-core Tic-Tac-Toe engine

A shallow embedding of the `xo-core` Rust crate (files `src/types.rs` and
`src/game_engine.rs`) together with proofs of the specified properties.

* `Player`, `Cell`, `GameState`, `MoveError` mirror the enums of `types.rs`.
* A board is a list of cells; the live boards produced by the engine always
  have length 9.  Indexing (`getCell`) and in-place update (`place`) model the
  array accesses of the Rust code, which are always in bounds on 9-cell boards.
* `check_board_state` models the classification routine *including* its
  `unreachable!()` arm: the result is `Option GameState`, where `none` stands
  for the panic.  `classify` is the total version; the two are proved to agree.
* `minimax_with_pruning` models the alpha-beta search.  The Rust recursion
  terminates because every recursive call fills one cell; the embedding makes
  this explicit with a fuel parameter (structural recursion), and fuel
  sufficiency (`fuel ≥` number of empty cells) is tracked in the lemmas.
  `minimax` is the spec-side plain (unpruned) minimax used for comparison.
* Scores are unbounded `Int`: the Rust code performs no arithmetic on scores
  beyond `max`/`min`/comparison, so `i32` overflow cannot occur and `Int` is a
  faithful model; the sentinel `-i32::MAX` is the literal `-maxI32`.
-/

set_option maxHeartbeats 1000000

namespace XO

/-- `Player` from `types.rs`. -/
inductive Player where
  | X : Player
  | O : Player
deriving DecidableEq, Repr

/-- `Player::opponent` from `types.rs`. -/
def Player.opponent : Player → Player
  | Player.X => Player.O
  | Player.O => Player.X

/-- `Cell` from `types.rs`. -/
inductive Cell where
  | X : Cell
  | O : Cell
  | Empty : Cell
deriving DecidableEq, Repr

/-- `GameState` from `types.rs`. -/
inductive GameState where
  | Win : Player → GameState
  | Tie : GameState
  | InProgress : GameState
deriving DecidableEq, Repr

/-- `MoveError` from `types.rs`. -/
inductive MoveError where
  | OutOfBounds : MoveError
  | CellOccupied : MoveError
deriving DecidableEq, Repr

/-- A board: the `[Cell; 9]` array, as a list.  Live boards have length 9. -/
abbrev Board := List Cell

/-- `board[i]`: array indexing.  All accesses performed by the engine are in
bounds on 9-cell boards, so the default value is irrelevant there. -/
def getCell (board : Board) (i : Nat) : Cell := board.getD i Cell.Empty

/-- The mark written by `make_move`/the search for a given player (the
`match player { X => Cell::X, O => Cell::O }` blocks). -/
def markOf : Player → Cell
  | Player.X => Cell.X
  | Player.O => Cell.O

/-- `board[i] = markOf p`: the simulated/applied move. -/
def place (board : Board) (i : Nat) (p : Player) : Board :=
  board.set i (markOf p)

/-- The eight `winning_combinations` of `check_board_state`, in source order. -/
def winning_combinations : List (Nat × Nat × Nat) :=
  [(0, 1, 2), (3, 4, 5), (6, 7, 8),
   (0, 3, 6), (1, 4, 7), (2, 5, 8),
   (0, 4, 8), (2, 4, 6)]

/-- One iteration of the winning-combination loop of `check_board_state`,
with the `unreachable!()` arm modelled explicitly: the outer `some` means
"this line causes an early return", and the inner value is `some p` for
`GameState::Win(p)` and `none` for the panic of the `unreachable!()` arm. -/
def lineOutcome (c1 c2 c3 : Cell) : Option (Option Player) :=
  if c1 ≠ Cell.Empty ∧ c1 = c2 ∧ c2 = c3 then
    some (match c1 with
          | Cell.X => some Player.X
          | Cell.O => some Player.O
          | Cell.Empty => none)
  else none

/-- The winner of one line, total version (the `unreachable!()` arm returns
"no win"; it is proved dead, so this agrees with `lineOutcome`). -/
def lineWinner (c1 c2 c3 : Cell) : Option Player :=
  if c1 ≠ Cell.Empty ∧ c1 = c2 ∧ c2 = c3 then
    match c1 with
    | Cell.X => some Player.X
    | Cell.O => some Player.O
    | Cell.Empty => none
  else none

/-- `!board.iter().any(|&cell| cell == Cell::Empty)`. -/
def boardFull (board : Board) : Bool :=
  !(board.any (fun c => c = Cell.Empty))

/-- `GameEngine::check_board_state`, with the `unreachable!()` panic modelled
as `none`. -/
def check_board_state (board : Board) : Option GameState :=
  match winning_combinations.findSome?
      (fun l => lineOutcome (getCell board l.1) (getCell board l.2.1) (getCell board l.2.2)) with
  | some (some p) => some (GameState.Win p)
  | some none => none
  | none =>
    if boardFull board then some GameState.Tie else some GameState.InProgress

/-- Total classification of a board; proved to agree with `check_board_state`
(whose panic arm is dead code, theorem `check_board_state_eq_classify`). -/
def classify (board : Board) : GameState :=
  match winning_combinations.findSome?
      (fun l => lineWinner (getCell board l.1) (getCell board l.2.1) (getCell board l.2.2)) with
  | some p => GameState.Win p
  | none =>
    if boardFull board then GameState.Tie else GameState.InProgress

/-- `GameEngine` from `game_engine.rs`. -/
structure GameEngine where
  board : Board
  current_player : Player
  ai_enabled : Bool
deriving DecidableEq, Repr

/-- `GameEngine::new`. -/
def GameEngine.new : GameEngine :=
  { board := List.replicate 9 Cell.Empty
    current_player := Player.X
    ai_enabled := true }

/-- `GameEngine::with_ai`. -/
def GameEngine.with_ai (ai_enabled : Bool) : GameEngine :=
  { board := List.replicate 9 Cell.Empty
    current_player := Player.X
    ai_enabled := ai_enabled }

/-- `GameEngine::make_move`.  The mutation of `&mut self` is modelled by
returning the new engine next to the result; the error branches return early,
leaving the engine untouched. -/
def make_move (e : GameEngine) (index : Nat) : Option MoveError × GameEngine :=
  if 9 ≤ index then (some MoveError.OutOfBounds, e)
  else if getCell e.board index ≠ Cell.Empty then (some MoveError.CellOccupied, e)
  else (none,
    { e with
      board := place e.board index e.current_player
      current_player := e.current_player.opponent })

/-- `GameEngine::check_state` (via the total classifier). -/
def check_state (e : GameEngine) : GameState := classify e.board

/-- `GameEngine::is_over`. -/
def is_over (e : GameEngine) : Bool :=
  match check_state e with
  | GameState.InProgress => false
  | _ => true

/-- `-i32::MAX`, the sentinel "worse than any real score". -/
def maxI32 : Int := 2147483647

/-- The `available_moves` vector of `minimax_with_pruning`:
`board.iter().enumerate().filter_map(...)`. -/
def availableMoves (board : Board) : List Nat :=
  board.enum.filterMap (fun ic => if ic.2 = Cell.Empty then some ic.1 else none)

/-- Number of empty cells; the measure that makes the Rust recursion
terminate. -/
def emptyCount (board : Board) : Nat :=
  board.countP (fun c => c = Cell.Empty)

/-- The maximizing-player loop of `minimax_with_pruning`; `f` is the recursive
call one fuel level down.  The `break` of the source is the early return when
`beta ≤ alpha` after updating. -/
def abMaxLoop (f : Board → Player → Int → Int → Int) (board : Board) (player : Player) :
    List Nat → Int → Int → Int → Int
  | [], _, _, maxEval => maxEval
  | i :: rest, alpha, beta, maxEval =>
    let eval := f (place board i player) player.opponent alpha beta
    let maxEval' := max maxEval eval
    let alpha' := max alpha eval
    if beta ≤ alpha' then maxEval'
    else abMaxLoop f board player rest alpha' beta maxEval'

/-- The minimizing-player loop of `minimax_with_pruning`. -/
def abMinLoop (f : Board → Player → Int → Int → Int) (board : Board) (player : Player) :
    List Nat → Int → Int → Int → Int
  | [], _, _, minEval => minEval
  | i :: rest, alpha, beta, minEval =>
    let eval := f (place board i player) player.opponent alpha beta
    let minEval' := min minEval eval
    let beta' := min beta eval
    if beta' ≤ alpha then minEval'
    else abMinLoop f board player rest alpha beta' minEval'

/-- `GameEngine::minimax_with_pruning`.  `root` is `self.current_player` (read
from `&self` during the search); `fuel` bounds the recursion depth and is
irrelevant as soon as it is at least the number of empty cells (the Rust
recursion always terminates because each call fills a cell). -/
def minimax_with_pruning (root : Player) : Nat → Board → Player → Int → Int → Int
  | 0, board, _, _, _ =>
    (match classify board with
     | GameState.Win w => if w = root then 10 else -10
     | GameState.Tie => 0
     | GameState.InProgress => 0)
  | fuel + 1, board, player, alpha, beta =>
    match classify board with
    | GameState.Win w => if w = root then 10 else -10
    | GameState.Tie => 0
    | GameState.InProgress =>
      let moves := availableMoves board
      if moves.isEmpty then 0
      else if player = root then
        abMaxLoop (minimax_with_pruning root fuel) board player moves alpha beta (-maxI32)
      else
        abMinLoop (minimax_with_pruning root fuel) board player moves alpha beta maxI32

/-- Spec-side plain minimax, no pruning: at a maximizing node the maximum of
the children's scores, at a minimizing node the minimum (the folds start from
the same sentinels the source uses, which is irrelevant since a non-terminal
node always has a child).  This is the reference `minimax_with_pruning` is
compared against. -/
def minimax (root : Player) : Nat → Board → Player → Int
  | 0, board, _ =>
    (match classify board with
     | GameState.Win w => if w = root then 10 else -10
     | GameState.Tie => 0
     | GameState.InProgress => 0)
  | fuel + 1, board, player =>
    match classify board with
    | GameState.Win w => if w = root then 10 else -10
    | GameState.Tie => 0
    | GameState.InProgress =>
      let moves := availableMoves board
      if moves.isEmpty then 0
      else if player = root then
        (moves.map (fun i => minimax root fuel (place board i player) player.opponent)).foldl
          max (-maxI32)
      else
        (moves.map (fun i => minimax root fuel (place board i player) player.opponent)).foldl
          min maxI32

/-- The `for i in 0..9` loop of `get_best_move`, carrying `best_score` and
`best_move`. -/
def bestLoop (e : GameEngine) : List Nat → Int → Option Nat → Option Nat
  | [], _, best => best
  | i :: rest, bestScore, best =>
    if getCell e.board i = Cell.Empty then
      let score := minimax_with_pruning e.current_player 9
        (place e.board i e.current_player) e.current_player.opponent (-maxI32) maxI32
      if bestScore < score then bestLoop e rest score (some i)
      else bestLoop e rest bestScore best
    else bestLoop e rest bestScore best

/-- `GameEngine::get_best_move`.  Fuel 9 suffices for every 9-cell board. -/
def get_best_move (e : GameEngine) : Option Nat :=
  if !e.ai_enabled || is_over e then none
  else bestLoop e (List.range 9) (-maxI32) none

/-- Self-play driver: repeatedly apply the move chosen by `get_best_move`
(for both sides) until it returns `none`. -/
def selfPlayAux : Nat → GameEngine → GameEngine
  | 0, e => e
  | n + 1, e =>
    match get_best_move e with
    | none => e
    | some i => selfPlayAux n (make_move e i).2

/-- The score `get_best_move` is specified to maximize: the plain minimax
value, for the player to move, of the board after playing `i`. -/
def moveScore (e : GameEngine) (i : Nat) : Int :=
  minimax e.current_player 9 (place e.board i e.current_player) e.current_player.opponent

/-- Spec-side: the `get_best_move` loop with pruning disabled, scoring each
candidate with plain `minimax` (`moveScore`) instead of
`minimax_with_pruning`. -/
def bestLoopUnpruned (e : GameEngine) : List Nat → Int → Option Nat → Option Nat
  | [], _, best => best
  | i :: rest, bestScore, best =>
    if getCell e.board i = Cell.Empty then
      if bestScore < moveScore e i then bestLoopUnpruned e rest (moveScore e i) (some i)
      else bestLoopUnpruned e rest bestScore best
    else bestLoopUnpruned e rest bestScore best

/-- Spec-side: `get_best_move` with pruning disabled. -/
def get_best_move_unpruned (e : GameEngine) : Option Nat :=
  if !e.ai_enabled || is_over e then none
  else bestLoopUnpruned e (List.range 9) (-maxI32) none

/-- Player `p` has a completed winning triple on `board`. -/
def hasWin (board : Board) (p : Player) : Prop :=
  ∃ l ∈ winning_combinations,
    getCell board l.1 = markOf p ∧ getCell board l.2.1 = markOf p ∧
      getCell board l.2.2 = markOf p

instance (board : Board) (p : Player) : Decidable (hasWin board p) := by
  unfold hasWin; infer_instance

/-- Apply a list of moves in order; `none` as soon as one is rejected. -/
def runMoves : GameEngine → List Nat → Option GameEngine
  | e, [] => some e
  | e, i :: rest =>
    match make_move e i with
    | (none, e1) => runMoves e1 rest
    | (some _, _) => none

/-- A strategy certificate for bounding a game value: `pick i k` commits to
the move `i` and continues with `k`; `table tbl` provides a continuation for
every available reply. -/
inductive Strat where
  | pick (i : Nat) (k : Strat) : Strat
  | table (tbl : List (Nat × Strat)) : Strat

/-- Certificate checker for a lower bound: `checkGE root fuel board player v s
= true` certifies `v ≤ minimax root fuel board player` (theorem
`checkGE_sound`).  At a maximizing node the certificate commits to one move;
at a minimizing node it must cover every available reply. -/
def checkGE (root : Player) : Nat → Board → Player → Int → Strat → Bool
  | 0, board, _, v, _ =>
    (match classify board with
     | GameState.Win w => decide (v ≤ if w = root then 10 else -10)
     | GameState.Tie => decide (v ≤ 0)
     | GameState.InProgress => decide (v ≤ 0))
  | fuel + 1, board, player, v, s =>
    match classify board with
    | GameState.Win w => decide (v ≤ if w = root then 10 else -10)
    | GameState.Tie => decide (v ≤ 0)
    | GameState.InProgress =>
      match s with
      | Strat.pick i k =>
        decide (player = root) && decide (i ∈ availableMoves board) &&
          checkGE root fuel (place board i player) player.opponent v k
      | Strat.table tbl =>
        decide (player ≠ root) &&
          (availableMoves board).all fun j =>
            match tbl.lookup j with
            | some k => checkGE root fuel (place board j player) player.opponent v k
            | none => false

/-- Certificate checker for an upper bound: `checkLE root fuel board player v
s = true` certifies `minimax root fuel board player ≤ v` (theorem
`checkLE_sound`). -/
def checkLE (root : Player) : Nat → Board → Player → Int → Strat → Bool
  | 0, board, _, v, _ =>
    (match classify board with
     | GameState.Win w => decide ((if w = root then (10 : Int) else -10) ≤ v)
     | GameState.Tie => decide ((0 : Int) ≤ v)
     | GameState.InProgress => decide ((0 : Int) ≤ v))
  | fuel + 1, board, player, v, s =>
    match classify board with
    | GameState.Win w => decide ((if w = root then (10 : Int) else -10) ≤ v)
    | GameState.Tie => decide ((0 : Int) ≤ v)
    | GameState.InProgress =>
      match s with
      | Strat.pick i k =>
        decide (player ≠ root) && decide (i ∈ availableMoves board) &&
          checkLE root fuel (place board i player) player.opponent v k
      | Strat.table tbl =>
        decide (player = root) &&
          (availableMoves board).all fun j =>
            match tbl.lookup j with
            | some k => checkLE root fuel (place board j player) player.opponent v k
            | none => false

/-- A mid-game test position (second player to move, two empty cells). -/
def boardA : Board :=
  [Cell.X, Cell.O, Cell.X, Cell.X, Cell.O, Cell.O, Cell.Empty, Cell.X, Cell.Empty]

/-- A test position already won by X on the top row. -/
def boardWinX : Board :=
  [Cell.X, Cell.X, Cell.X, Cell.O, Cell.O, Cell.Empty, Cell.Empty, Cell.Empty, Cell.Empty]

/-- A full drawn test position. -/
def boardTie : Board :=
  [Cell.X, Cell.O, Cell.X, Cell.X, Cell.O, Cell.O, Cell.O, Cell.X, Cell.X]

/-- The fail-soft specification of an alpha-beta result `r` against the true
minimax value `v`: exact inside the window, a sound bound outside it. -/
def KMspec (v r alpha beta : Int) : Prop :=
  (v ≤ alpha → v ≤ r ∧ r ≤ alpha) ∧ (alpha < v → v < beta → r = v) ∧
    (beta ≤ v → beta ≤ r ∧ r ≤ v)

/-- A strategy certificate for the first player on the empty board: it
witnesses that X can guarantee at least a draw (value ≥ 0) against every
reply; checked by `checkGE` (theorem `certGE_checks`). -/
def certGE : Strat :=
  (Strat.pick 0 (Strat.table [(1, (Strat.pick 2 (Strat.table [(3, (Strat.pick 4 (Strat.table [(5, (Strat.pick 6 (Strat.table []))), (6, (Strat.pick 5 (Strat.table [(7, (Strat.pick 8 (Strat.table []))), (8, (Strat.pick 7 (Strat.table [])))]))), (7, (Strat.pick 5 (Strat.table [(6, (Strat.pick 8 (Strat.table []))), (8, (Strat.pick 6 (Strat.table [])))]))), (8, (Strat.pick 5 (Strat.table [(6, (Strat.pick 7 (Strat.table []))), (7, (Strat.pick 6 (Strat.table [])))])))]))), (4, (Strat.pick 7 (Strat.table [(3, (Strat.pick 5 (Strat.table [(6, (Strat.pick 8 (Strat.table []))), (8, (Strat.pick 6 (Strat.table [])))]))), (5, (Strat.pick 3 (Strat.table [(6, (Strat.pick 8 (Strat.table []))), (8, (Strat.pick 6 (Strat.table [])))]))), (6, (Strat.pick 3 (Strat.table [(5, (Strat.pick 8 (Strat.table []))), (8, (Strat.pick 5 (Strat.table [])))]))), (8, (Strat.pick 3 (Strat.table [(5, (Strat.pick 6 (Strat.table []))), (6, (Strat.pick 5 (Strat.table [])))])))]))), (5, (Strat.pick 3 (Strat.table [(4, (Strat.pick 6 (Strat.table []))), (6, (Strat.pick 4 (Strat.table [(7, (Strat.pick 8 (Strat.table []))), (8, (Strat.pick 7 (Strat.table [])))]))), (7, (Strat.pick 4 (Strat.table [(6, (Strat.pick 8 (Strat.table []))), (8, (Strat.pick 6 (Strat.table [])))]))), (8, (Strat.pick 4 (Strat.table [(6, (Strat.pick 7 (Strat.table []))), (7, (Strat.pick 6 (Strat.table [])))])))]))), (6, (Strat.pick 4 (Strat.table [(3, (Strat.pick 5 (Strat.table [(7, (Strat.pick 8 (Strat.table []))), (8, (Strat.pick 7 (Strat.table [])))]))), (5, (Strat.pick 3 (Strat.table [(7, (Strat.pick 8 (Strat.table []))), (8, (Strat.pick 7 (Strat.table [])))]))), (7, (Strat.pick 8 (Strat.table []))), (8, (Strat.pick 7 (Strat.table [(3, (Strat.pick 5 (Strat.table []))), (5, (Strat.pick 3 (Strat.table [])))])))]))), (7, (Strat.pick 4 (Strat.table [(3, (Strat.pick 5 (Strat.table [(6, (Strat.pick 8 (Strat.table []))), (8, (Strat.pick 6 (Strat.table [])))]))), (5, (Strat.pick 3 (Strat.table [(6, (Strat.pick 8 (Strat.table []))), (8, (Strat.pick 6 (Strat.table [])))]))), (6, (Strat.pick 8 (Strat.table []))), (8, (Strat.pick 6 (Strat.table [])))]))), (8, (Strat.pick 3 (Strat.table [(4, (Strat.pick 6 (Strat.table []))), (5, (Strat.pick 4 (Strat.table [(6, (Strat.pick 7 (Strat.table []))), (7, (Strat.pick 6 (Strat.table [])))]))), (6, (Strat.pick 7 (Strat.table [(4, (Strat.pick 5 (Strat.table []))), (5, (Strat.pick 4 (Strat.table [])))]))), (7, (Strat.pick 6 (Strat.table [])))])))]))), (2, (Strat.pick 3 (Strat.table [(1, (Strat.pick 4 (Strat.table [(5, (Strat.pick 6 (Strat.table []))), (6, (Strat.pick 5 (Strat.table []))), (7, (Strat.pick 5 (Strat.table []))), (8, (Strat.pick 5 (Strat.table [])))]))), (4, (Strat.pick 6 (Strat.table []))), (5, (Strat.pick 6 (Strat.table []))), (6, (Strat.pick 4 (Strat.table [(1, (Strat.pick 5 (Strat.table []))), (5, (Strat.pick 8 (Strat.table []))), (7, (Strat.pick 5 (Strat.table []))), (8, (Strat.pick 5 (Strat.table [])))]))), (7, (Strat.pick 4 (Strat.table [(1, (Strat.pick 5 (Strat.table []))), (5, (Strat.pick 6 (Strat.table []))), (6, (Strat.pick 5 (Strat.table []))), (8, (Strat.pick 5 (Strat.table [])))]))), (8, (Strat.pick 5 (Strat.table [(1, (Strat.pick 4 (Strat.table []))), (4, (Strat.pick 6 (Strat.table []))), (6, (Strat.pick 4 (Strat.table []))), (7, (Strat.pick 4 (Strat.table [])))])))]))), (3, (Strat.pick 1 (Strat.table [(2, (Strat.pick 4 (Strat.table [(5, (Strat.pick 7 (Strat.table []))), (6, (Strat.pick 5 (Strat.table [(7, (Strat.pick 8 (Strat.table []))), (8, (Strat.pick 7 (Strat.table [])))]))), (7, (Strat.pick 5 (Strat.table [(6, (Strat.pick 8 (Strat.table []))), (8, (Strat.pick 6 (Strat.table [])))]))), (8, (Strat.pick 5 (Strat.table [(6, (Strat.pick 7 (Strat.table []))), (7, (Strat.pick 6 (Strat.table [])))])))]))), (4, (Strat.pick 2 (Strat.table []))), (5, (Strat.pick 2 (Strat.table []))), (6, (Strat.pick 2 (Strat.table []))), (7, (Strat.pick 2 (Strat.table []))), (8, (Strat.pick 2 (Strat.table [])))]))), (4, (Strat.pick 1 (Strat.table [(2, (Strat.pick 6 (Strat.table [(3, (Strat.pick 5 (Strat.table [(7, (Strat.pick 8 (Strat.table []))), (8, (Strat.pick 7 (Strat.table [])))]))), (5, (Strat.pick 3 (Strat.table []))), (7, (Strat.pick 3 (Strat.table []))), (8, (Strat.pick 3 (Strat.table [])))]))), (3, (Strat.pick 2 (Strat.table []))), (5, (Strat.pick 2 (Strat.table []))), (6, (Strat.pick 2 (Strat.table []))), (7, (Strat.pick 2 (Strat.table []))), (8, (Strat.pick 2 (Strat.table [])))]))), (5, (Strat.pick 2 (Strat.table [(1, (Strat.pick 3 (Strat.table [(4, (Strat.pick 6 (Strat.table []))), (6, (Strat.pick 4 (Strat.table [(7, (Strat.pick 8 (Strat.table []))), (8, (Strat.pick 7 (Strat.table [])))]))), (7, (Strat.pick 4 (Strat.table [(6, (Strat.pick 8 (Strat.table []))), (8, (Strat.pick 6 (Strat.table [])))]))), (8, (Strat.pick 4 (Strat.table [(6, (Strat.pick 7 (Strat.table []))), (7, (Strat.pick 6 (Strat.table [])))])))]))), (3, (Strat.pick 1 (Strat.table []))), (4, (Strat.pick 1 (Strat.table []))), (6, (Strat.pick 1 (Strat.table []))), (7, (Strat.pick 1 (Strat.table []))), (8, (Strat.pick 1 (Strat.table [])))]))), (6, (Strat.pick 1 (Strat.table [(2, (Strat.pick 4 (Strat.table [(3, (Strat.pick 5 (Strat.table [(7, (Strat.pick 8 (Strat.table []))), (8, (Strat.pick 7 (Strat.table [])))]))), (5, (Strat.pick 7 (Strat.table []))), (7, (Strat.pick 8 (Strat.table []))), (8, (Strat.pick 7 (Strat.table [])))]))), (3, (Strat.pick 2 (Strat.table []))), (4, (Strat.pick 2 (Strat.table []))), (5, (Strat.pick 2 (Strat.table []))), (7, (Strat.pick 2 (Strat.table []))), (8, (Strat.pick 2 (Strat.table [])))]))), (7, (Strat.pick 1 (Strat.table [(2, (Strat.pick 6 (Strat.table [(3, (Strat.pick 4 (Strat.table [(5, (Strat.pick 8 (Strat.table []))), (8, (Strat.pick 5 (Strat.table [])))]))), (4, (Strat.pick 3 (Strat.table []))), (5, (Strat.pick 3 (Strat.table []))), (8, (Strat.pick 3 (Strat.table [])))]))), (3, (Strat.pick 2 (Strat.table []))), (4, (Strat.pick 2 (Strat.table []))), (5, (Strat.pick 2 (Strat.table []))), (6, (Strat.pick 2 (Strat.table []))), (8, (Strat.pick 2 (Strat.table [])))]))), (8, (Strat.pick 2 (Strat.table [(1, (Strat.pick 3 (Strat.table [(4, (Strat.pick 6 (Strat.table []))), (5, (Strat.pick 4 (Strat.table [(6, (Strat.pick 7 (Strat.table []))), (7, (Strat.pick 6 (Strat.table [])))]))), (6, (Strat.pick 7 (Strat.table [(4, (Strat.pick 5 (Strat.table []))), (5, (Strat.pick 4 (Strat.table [])))]))), (7, (Strat.pick 6 (Strat.table [])))]))), (3, (Strat.pick 1 (Strat.table []))), (4, (Strat.pick 1 (Strat.table []))), (5, (Strat.pick 1 (Strat.table []))), (6, (Strat.pick 1 (Strat.table []))), (7, (Strat.pick 1 (Strat.table [])))])))]))

/-- A strategy certificate for the second player on the empty board: it
witnesses that O can hold X to at most a draw (value ≤ 0) against every
X move; checked by `checkLE` (theorem `certLE_checks`). -/
def certLE : Strat :=
  (Strat.table [(0, (Strat.pick 4 (Strat.table [(1, (Strat.pick 2 (Strat.table [(3, (Strat.pick 6 (Strat.table []))), (5, (Strat.pick 3 (Strat.table [(6, (Strat.pick 7 (Strat.table [(8, (Strat.table []))]))), (7, (Strat.pick 6 (Strat.table []))), (8, (Strat.pick 6 (Strat.table [])))]))), (6, (Strat.pick 3 (Strat.table [(5, (Strat.pick 7 (Strat.table [(8, (Strat.table []))]))), (7, (Strat.pick 5 (Strat.table []))), (8, (Strat.pick 5 (Strat.table [])))]))), (7, (Strat.pick 3 (Strat.table [(5, (Strat.pick 6 (Strat.table []))), (6, (Strat.pick 5 (Strat.table []))), (8, (Strat.pick 5 (Strat.table [])))]))), (8, (Strat.pick 3 (Strat.table [(5, (Strat.pick 6 (Strat.table []))), (6, (Strat.pick 5 (Strat.table []))), (7, (Strat.pick 5 (Strat.table [])))])))]))), (2, (Strat.pick 1 (Strat.table [(3, (Strat.pick 6 (Strat.table [(5, (Strat.pick 7 (Strat.table []))), (7, (Strat.pick 5 (Strat.table [(8, (Strat.table []))]))), (8, (Strat.pick 5 (Strat.table [(7, (Strat.table []))])))]))), (5, (Strat.pick 7 (Strat.table []))), (6, (Strat.pick 3 (Strat.table [(5, (Strat.pick 7 (Strat.table []))), (7, (Strat.pick 5 (Strat.table []))), (8, (Strat.pick 5 (Strat.table [])))]))), (7, (Strat.pick 3 (Strat.table [(5, (Strat.pick 8 (Strat.table [(6, (Strat.table []))]))), (6, (Strat.pick 5 (Strat.table []))), (8, (Strat.pick 5 (Strat.table [])))]))), (8, (Strat.pick 5 (Strat.table [(3, (Strat.pick 6 (Strat.table [(7, (Strat.table []))]))), (6, (Strat.pick 3 (Strat.table []))), (7, (Strat.pick 3 (Strat.table [])))])))]))), (3, (Strat.pick 6 (Strat.table [(1, (Strat.pick 2 (Strat.table []))), (2, (Strat.pick 1 (Strat.table [(5, (Strat.pick 7 (Strat.table []))), (7, (Strat.pick 5 (Strat.table [(8, (Strat.table []))]))), (8, (Strat.pick 5 (Strat.table [(7, (Strat.table []))])))]))), (5, (Strat.pick 1 (Strat.table [(2, (Strat.pick 7 (Strat.table []))), (7, (Strat.pick 2 (Strat.table []))), (8, (Strat.pick 2 (Strat.table [])))]))), (7, (Strat.pick 1 (Strat.table [(2, (Strat.pick 5 (Strat.table [(8, (Strat.table []))]))), (5, (Strat.pick 2 (Strat.table []))), (8, (Strat.pick 2 (Strat.table [])))]))), (8, (Strat.pick 1 (Strat.table [(2, (Strat.pick 5 (Strat.table [(7, (Strat.table []))]))), (5, (Strat.pick 2 (Strat.table []))), (7, (Strat.pick 2 (Strat.table [])))])))]))), (5, (Strat.pick 1 (Strat.table [(2, (Strat.pick 7 (Strat.table []))), (3, (Strat.pick 6 (Strat.table [(2, (Strat.pick 7 (Strat.table []))), (7, (Strat.pick 2 (Strat.table []))), (8, (Strat.pick 2 (Strat.table [])))]))), (6, (Strat.pick 3 (Strat.table [(2, (Strat.pick 7 (Strat.table []))), (7, (Strat.pick 8 (Strat.table [(2, (Strat.table []))]))), (8, (Strat.pick 7 (Strat.table [])))]))), (7, (Strat.pick 6 (Strat.table [(2, (Strat.pick 8 (Strat.table [(3, (Strat.table []))]))), (3, (Strat.pick 2 (Strat.table []))), (8, (Strat.pick 2 (Strat.table [])))]))), (8, (Strat.pick 2 (Strat.table [(3, (Strat.pick 6 (Strat.table []))), (6, (Strat.pick 7 (Strat.table []))), (7, (Strat.pick 6 (Strat.table [])))])))]))), (6, (Strat.pick 3 (Strat.table [(1, (Strat.pick 2 (Strat.table [(5, (Strat.pick 7 (Strat.table [(8, (Strat.table []))]))), (7, (Strat.pick 5 (Strat.table []))), (8, (Strat.pick 5 (Strat.table [])))]))), (2, (Strat.pick 1 (Strat.table [(5, (Strat.pick 7 (Strat.table []))), (7, (Strat.pick 5 (Strat.table []))), (8, (Strat.pick 5 (Strat.table [])))]))), (5, (Strat.pick 1 (Strat.table [(2, (Strat.pick 7 (Strat.table []))), (7, (Strat.pick 8 (Strat.table [(2, (Strat.table []))]))), (8, (Strat.pick 7 (Strat.table [])))]))), (7, (Strat.pick 5 (Strat.table []))), (8, (Strat.pick 5 (Strat.table [])))]))), (7, (Strat.pick 3 (Strat.table [(1, (Strat.pick 2 (Strat.table [(5, (Strat.pick 6 (Strat.table []))), (6, (Strat.pick 5 (Strat.table []))), (8, (Strat.pick 5 (Strat.table [])))]))), (2, (Strat.pick 1 (Strat.table [(5, (Strat.pick 8 (Strat.table [(6, (Strat.table []))]))), (6, (Strat.pick 5 (Strat.table []))), (8, (Strat.pick 5 (Strat.table [])))]))), (5, (Strat.pick 2 (Strat.table [(1, (Strat.pick 6 (Strat.table []))), (6, (Strat.pick 8 (Strat.table [(1, (Strat.table []))]))), (8, (Strat.pick 6 (Strat.table [])))]))), (6, (Strat.pick 5 (Strat.table []))), (8, (Strat.pick 5 (Strat.table [])))]))), (8, (Strat.pick 1 (Strat.table [(2, (Strat.pick 5 (Strat.table [(3, (Strat.pick 6 (Strat.table [(7, (Strat.table []))]))), (6, (Strat.pick 3 (Strat.table []))), (7, (Strat.pick 3 (Strat.table [])))]))), (3, (Strat.pick 6 (Strat.table [(2, (Strat.pick 5 (Strat.table [(7, (Strat.table []))]))), (5, (Strat.pick 2 (Strat.table []))), (7, (Strat.pick 2 (Strat.table [])))]))), (5, (Strat.pick 2 (Strat.table [(3, (Strat.pick 6 (Strat.table []))), (6, (Strat.pick 7 (Strat.table []))), (7, (Strat.pick 6 (Strat.table [])))]))), (6, (Strat.pick 7 (Strat.table []))), (7, (Strat.pick 6 (Strat.table [(2, (Strat.pick 5 (Strat.table [(3, (Strat.table []))]))), (3, (Strat.pick 2 (Strat.table []))), (5, (Strat.pick 2 (Strat.table [])))])))])))]))), (1, (Strat.pick 0 (Strat.table [(2, (Strat.pick 3 (Strat.table [(4, (Strat.pick 6 (Strat.table []))), (5, (Strat.pick 6 (Strat.table []))), (6, (Strat.pick 4 (Strat.table [(5, (Strat.pick 8 (Strat.table []))), (7, (Strat.pick 5 (Strat.table []))), (8, (Strat.pick 5 (Strat.table [])))]))), (7, (Strat.pick 4 (Strat.table [(5, (Strat.pick 6 (Strat.table []))), (6, (Strat.pick 5 (Strat.table []))), (8, (Strat.pick 5 (Strat.table [])))]))), (8, (Strat.pick 5 (Strat.table [(4, (Strat.pick 6 (Strat.table []))), (6, (Strat.pick 4 (Strat.table []))), (7, (Strat.pick 4 (Strat.table [])))])))]))), (3, (Strat.pick 4 (Strat.table [(2, (Strat.pick 5 (Strat.table [(6, (Strat.pick 7 (Strat.table [(8, (Strat.table []))]))), (7, (Strat.pick 6 (Strat.table [(8, (Strat.table []))]))), (8, (Strat.pick 6 (Strat.table [(7, (Strat.table []))])))]))), (5, (Strat.pick 2 (Strat.table [(6, (Strat.pick 7 (Strat.table [(8, (Strat.table []))]))), (7, (Strat.pick 6 (Strat.table []))), (8, (Strat.pick 6 (Strat.table [])))]))), (6, (Strat.pick 2 (Strat.table [(5, (Strat.pick 7 (Strat.table [(8, (Strat.table []))]))), (7, (Strat.pick 8 (Strat.table []))), (8, (Strat.pick 7 (Strat.table [(5, (Strat.table []))])))]))), (7, (Strat.pick 2 (Strat.table [(5, (Strat.pick 6 (Strat.table []))), (6, (Strat.pick 8 (Strat.table []))), (8, (Strat.pick 6 (Strat.table [])))]))), (8, (Strat.pick 2 (Strat.table [(5, (Strat.pick 6 (Strat.table []))), (6, (Strat.pick 7 (Strat.table [(5, (Strat.table []))]))), (7, (Strat.pick 6 (Strat.table [])))])))]))), (4, (Strat.pick 7 (Strat.table [(2, (Strat.pick 6 (Strat.table [(3, (Strat.pick 5 (Strat.table [(8, (Strat.table []))]))), (5, (Strat.pick 3 (Strat.table []))), (8, (Strat.pick 3 (Strat.table [])))]))), (3, (Strat.pick 5 (Strat.table [(2, (Strat.pick 6 (Strat.table [(8, (Strat.table []))]))), (6, (Strat.pick 2 (Strat.table [(8, (Strat.table []))]))), (8, (Strat.pick 2 (Strat.table [(6, (Strat.table []))])))]))), (5, (Strat.pick 3 (Strat.table [(2, (Strat.pick 6 (Strat.table []))), (6, (Strat.pick 2 (Strat.table [(8, (Strat.table []))]))), (8, (Strat.pick 2 (Strat.table [(6, (Strat.table []))])))]))), (6, (Strat.pick 2 (Strat.table [(3, (Strat.pick 5 (Strat.table [(8, (Strat.table []))]))), (5, (Strat.pick 3 (Strat.table [(8, (Strat.table []))]))), (8, (Strat.pick 3 (Strat.table [(5, (Strat.table []))])))]))), (8, (Strat.pick 2 (Strat.table [(3, (Strat.pick 5 (Strat.table [(6, (Strat.table []))]))), (5, (Strat.pick 3 (Strat.table [(6, (Strat.table []))]))), (6, (Strat.pick 3 (Strat.table [(5, (Strat.table []))])))])))]))), (5, (Strat.pick 4 (Strat.table [(2, (Strat.pick 8 (Strat.table []))), (3, (Strat.pick 2 (Strat.table [(6, (Strat.pick 7 (Strat.table [(8, (Strat.table []))]))), (7, (Strat.pick 6 (Strat.table []))), (8, (Strat.pick 6 (Strat.table [])))]))), (6, (Strat.pick 2 (Strat.table [(3, (Strat.pick 7 (Strat.table [(8, (Strat.table []))]))), (7, (Strat.pick 8 (Strat.table []))), (8, (Strat.pick 7 (Strat.table [(3, (Strat.table []))])))]))), (7, (Strat.pick 2 (Strat.table [(3, (Strat.pick 6 (Strat.table []))), (6, (Strat.pick 8 (Strat.table []))), (8, (Strat.pick 6 (Strat.table [])))]))), (8, (Strat.pick 2 (Strat.table [(3, (Strat.pick 6 (Strat.table []))), (6, (Strat.pick 7 (Strat.table [(3, (Strat.table []))]))), (7, (Strat.pick 6 (Strat.table [])))])))]))), (6, (Strat.pick 4 (Strat.table [(2, (Strat.pick 3 (Strat.table [(5, (Strat.pick 8 (Strat.table []))), (7, (Strat.pick 5 (Strat.table []))), (8, (Strat.pick 5 (Strat.table [])))]))), (3, (Strat.pick 2 (Strat.table [(5, (Strat.pick 7 (Strat.table [(8, (Strat.table []))]))), (7, (Strat.pick 8 (Strat.table []))), (8, (Strat.pick 7 (Strat.table [(5, (Strat.table []))])))]))), (5, (Strat.pick 2 (Strat.table [(3, (Strat.pick 7 (Strat.table [(8, (Strat.table []))]))), (7, (Strat.pick 8 (Strat.table []))), (8, (Strat.pick 7 (Strat.table [(3, (Strat.table []))])))]))), (7, (Strat.pick 8 (Strat.table []))), (8, (Strat.pick 7 (Strat.table [(2, (Strat.pick 5 (Strat.table [(3, (Strat.table []))]))), (3, (Strat.pick 2 (Strat.table [(5, (Strat.table []))]))), (5, (Strat.pick 2 (Strat.table [(3, (Strat.table []))])))])))]))), (7, (Strat.pick 4 (Strat.table [(2, (Strat.pick 3 (Strat.table [(5, (Strat.pick 6 (Strat.table []))), (6, (Strat.pick 5 (Strat.table []))), (8, (Strat.pick 5 (Strat.table [])))]))), (3, (Strat.pick 2 (Strat.table [(5, (Strat.pick 6 (Strat.table []))), (6, (Strat.pick 8 (Strat.table []))), (8, (Strat.pick 6 (Strat.table [])))]))), (5, (Strat.pick 2 (Strat.table [(3, (Strat.pick 6 (Strat.table []))), (6, (Strat.pick 8 (Strat.table []))), (8, (Strat.pick 6 (Strat.table [])))]))), (6, (Strat.pick 8 (Strat.table []))), (8, (Strat.pick 6 (Strat.table [(2, (Strat.pick 3 (Strat.table []))), (3, (Strat.pick 2 (Strat.table []))), (5, (Strat.pick 2 (Strat.table [])))])))]))), (8, (Strat.pick 4 (Strat.table [(2, (Strat.pick 5 (Strat.table [(3, (Strat.pick 6 (Strat.table [(7, (Strat.table []))]))), (6, (Strat.pick 3 (Strat.table []))), (7, (Strat.pick 3 (Strat.table [])))]))), (3, (Strat.pick 2 (Strat.table [(5, (Strat.pick 6 (Strat.table []))), (6, (Strat.pick 7 (Strat.table [(5, (Strat.table []))]))), (7, (Strat.pick 6 (Strat.table [])))]))), (5, (Strat.pick 2 (Strat.table [(3, (Strat.pick 6 (Strat.table []))), (6, (Strat.pick 7 (Strat.table [(3, (Strat.table []))]))), (7, (Strat.pick 6 (Strat.table [])))]))), (6, (Strat.pick 7 (Strat.table [(2, (Strat.pick 5 (Strat.table [(3, (Strat.table []))]))), (3, (Strat.pick 2 (Strat.table [(5, (Strat.table []))]))), (5, (Strat.pick 2 (Strat.table [(3, (Strat.table []))])))]))), (7, (Strat.pick 6 (Strat.table [(2, (Strat.pick 3 (Strat.table []))), (3, (Strat.pick 2 (Strat.table []))), (5, (Strat.pick 2 (Strat.table [])))])))])))]))), (2, (Strat.pick 4 (Strat.table [(0, (Strat.pick 1 (Strat.table [(3, (Strat.pick 6 (Strat.table [(5, (Strat.pick 7 (Strat.table []))), (7, (Strat.pick 5 (Strat.table [(8, (Strat.table []))]))), (8, (Strat.pick 5 (Strat.table [(7, (Strat.table []))])))]))), (5, (Strat.pick 7 (Strat.table []))), (6, (Strat.pick 3 (Strat.table [(5, (Strat.pick 7 (Strat.table []))), (7, (Strat.pick 5 (Strat.table []))), (8, (Strat.pick 5 (Strat.table [])))]))), (7, (Strat.pick 3 (Strat.table [(5, (Strat.pick 8 (Strat.table [(6, (Strat.table []))]))), (6, (Strat.pick 5 (Strat.table []))), (8, (Strat.pick 5 (Strat.table [])))]))), (8, (Strat.pick 5 (Strat.table [(3, (Strat.pick 6 (Strat.table [(7, (Strat.table []))]))), (6, (Strat.pick 3 (Strat.table []))), (7, (Strat.pick 3 (Strat.table [])))])))]))), (1, (Strat.pick 0 (Strat.table [(3, (Strat.pick 5 (Strat.table [(6, (Strat.pick 7 (Strat.table [(8, (Strat.table []))]))), (7, (Strat.pick 6 (Strat.table [(8, (Strat.table []))]))), (8, (Strat.pick 6 (Strat.table [(7, (Strat.table []))])))]))), (5, (Strat.pick 8 (Strat.table []))), (6, (Strat.pick 3 (Strat.table [(5, (Strat.pick 8 (Strat.table []))), (7, (Strat.pick 5 (Strat.table []))), (8, (Strat.pick 5 (Strat.table [])))]))), (7, (Strat.pick 3 (Strat.table [(5, (Strat.pick 6 (Strat.table []))), (6, (Strat.pick 5 (Strat.table []))), (8, (Strat.pick 5 (Strat.table [])))]))), (8, (Strat.pick 5 (Strat.table [(3, (Strat.pick 6 (Strat.table [(7, (Strat.table []))]))), (6, (Strat.pick 3 (Strat.table []))), (7, (Strat.pick 3 (Strat.table [])))])))]))), (3, (Strat.pick 0 (Strat.table [(1, (Strat.pick 5 (Strat.table [(6, (Strat.pick 7 (Strat.table [(8, (Strat.table []))]))), (7, (Strat.pick 6 (Strat.table [(8, (Strat.table []))]))), (8, (Strat.pick 6 (Strat.table [(7, (Strat.table []))])))]))), (5, (Strat.pick 8 (Strat.table []))), (6, (Strat.pick 1 (Strat.table [(5, (Strat.pick 7 (Strat.table []))), (7, (Strat.pick 8 (Strat.table []))), (8, (Strat.pick 7 (Strat.table [])))]))), (7, (Strat.pick 5 (Strat.table [(1, (Strat.pick 6 (Strat.table [(8, (Strat.table []))]))), (6, (Strat.pick 8 (Strat.table []))), (8, (Strat.pick 6 (Strat.table [(1, (Strat.table []))])))]))), (8, (Strat.pick 5 (Strat.table [(1, (Strat.pick 6 (Strat.table [(7, (Strat.table []))]))), (6, (Strat.pick 7 (Strat.table [(1, (Strat.table []))]))), (7, (Strat.pick 6 (Strat.table [(1, (Strat.table []))])))])))]))), (5, (Strat.pick 8 (Strat.table [(0, (Strat.pick 1 (Strat.table [(3, (Strat.pick 6 (Strat.table [(7, (Strat.table []))]))), (6, (Strat.pick 3 (Strat.table [(7, (Strat.table []))]))), (7, (Strat.pick 3 (Strat.table [(6, (Strat.table []))])))]))), (1, (Strat.pick 0 (Strat.table []))), (3, (Strat.pick 0 (Strat.table []))), (6, (Strat.pick 0 (Strat.table []))), (7, (Strat.pick 0 (Strat.table [])))]))), (6, (Strat.pick 1 (Strat.table [(0, (Strat.pick 3 (Strat.table [(5, (Strat.pick 7 (Strat.table []))), (7, (Strat.pick 5 (Strat.table []))), (8, (Strat.pick 5 (Strat.table [])))]))), (3, (Strat.pick 0 (Strat.table [(5, (Strat.pick 7 (Strat.table []))), (7, (Strat.pick 8 (Strat.table []))), (8, (Strat.pick 7 (Strat.table [])))]))), (5, (Strat.pick 7 (Strat.table []))), (7, (Strat.pick 8 (Strat.table [(0, (Strat.pick 3 (Strat.table [(5, (Strat.table []))]))), (3, (Strat.pick 0 (Strat.table []))), (5, (Strat.pick 0 (Strat.table [])))]))), (8, (Strat.pick 7 (Strat.table [])))]))), (7, (Strat.pick 3 (Strat.table [(0, (Strat.pick 1 (Strat.table [(5, (Strat.pick 8 (Strat.table [(6, (Strat.table []))]))), (6, (Strat.pick 5 (Strat.table []))), (8, (Strat.pick 5 (Strat.table [])))]))), (1, (Strat.pick 0 (Strat.table [(5, (Strat.pick 6 (Strat.table []))), (6, (Strat.pick 5 (Strat.table []))), (8, (Strat.pick 5 (Strat.table [])))]))), (5, (Strat.pick 8 (Strat.table [(0, (Strat.pick 1 (Strat.table [(6, (Strat.table []))]))), (1, (Strat.pick 0 (Strat.table []))), (6, (Strat.pick 0 (Strat.table [])))]))), (6, (Strat.pick 5 (Strat.table []))), (8, (Strat.pick 5 (Strat.table [])))]))), (8, (Strat.pick 5 (Strat.table [(0, (Strat.pick 1 (Strat.table [(3, (Strat.pick 6 (Strat.table [(7, (Strat.table []))]))), (6, (Strat.pick 3 (Strat.table []))), (7, (Strat.pick 3 (Strat.table [])))]))), (1, (Strat.pick 0 (Strat.table [(3, (Strat.pick 6 (Strat.table [(7, (Strat.table []))]))), (6, (Strat.pick 3 (Strat.table []))), (7, (Strat.pick 3 (Strat.table [])))]))), (3, (Strat.pick 0 (Strat.table [(1, (Strat.pick 6 (Strat.table [(7, (Strat.table []))]))), (6, (Strat.pick 7 (Strat.table [(1, (Strat.table []))]))), (7, (Strat.pick 6 (Strat.table [(1, (Strat.table []))])))]))), (6, (Strat.pick 3 (Strat.table []))), (7, (Strat.pick 3 (Strat.table [])))])))]))), (3, (Strat.pick 0 (Strat.table [(1, (Strat.pick 4 (Strat.table [(2, (Strat.pick 5 (Strat.table [(6, (Strat.pick 7 (Strat.table [(8, (Strat.table []))]))), (7, (Strat.pick 6 (Strat.table [(8, (Strat.table []))]))), (8, (Strat.pick 6 (Strat.table [(7, (Strat.table []))])))]))), (5, (Strat.pick 2 (Strat.table [(6, (Strat.pick 7 (Strat.table [(8, (Strat.table []))]))), (7, (Strat.pick 6 (Strat.table []))), (8, (Strat.pick 6 (Strat.table [])))]))), (6, (Strat.pick 2 (Strat.table [(5, (Strat.pick 7 (Strat.table [(8, (Strat.table []))]))), (7, (Strat.pick 8 (Strat.table []))), (8, (Strat.pick 7 (Strat.table [(5, (Strat.table []))])))]))), (7, (Strat.pick 2 (Strat.table [(5, (Strat.pick 6 (Strat.table []))), (6, (Strat.pick 8 (Strat.table []))), (8, (Strat.pick 6 (Strat.table [])))]))), (8, (Strat.pick 2 (Strat.table [(5, (Strat.pick 6 (Strat.table []))), (6, (Strat.pick 7 (Strat.table [(5, (Strat.table []))]))), (7, (Strat.pick 6 (Strat.table [])))])))]))), (2, (Strat.pick 4 (Strat.table [(1, (Strat.pick 5 (Strat.table [(6, (Strat.pick 7 (Strat.table [(8, (Strat.table []))]))), (7, (Strat.pick 6 (Strat.table [(8, (Strat.table []))]))), (8, (Strat.pick 6 (Strat.table [(7, (Strat.table []))])))]))), (5, (Strat.pick 8 (Strat.table []))), (6, (Strat.pick 1 (Strat.table [(5, (Strat.pick 7 (Strat.table []))), (7, (Strat.pick 8 (Strat.table []))), (8, (Strat.pick 7 (Strat.table [])))]))), (7, (Strat.pick 5 (Strat.table [(1, (Strat.pick 6 (Strat.table [(8, (Strat.table []))]))), (6, (Strat.pick 8 (Strat.table []))), (8, (Strat.pick 6 (Strat.table [(1, (Strat.table []))])))]))), (8, (Strat.pick 5 (Strat.table [(1, (Strat.pick 6 (Strat.table [(7, (Strat.table []))]))), (6, (Strat.pick 7 (Strat.table [(1, (Strat.table []))]))), (7, (Strat.pick 6 (Strat.table [(1, (Strat.table []))])))])))]))), (4, (Strat.pick 5 (Strat.table [(1, (Strat.pick 7 (Strat.table [(2, (Strat.pick 6 (Strat.table [(8, (Strat.table []))]))), (6, (Strat.pick 2 (Strat.table [(8, (Strat.table []))]))), (8, (Strat.pick 2 (Strat.table [(6, (Strat.table []))])))]))), (2, (Strat.pick 6 (Strat.table [(1, (Strat.pick 7 (Strat.table [(8, (Strat.table []))]))), (7, (Strat.pick 1 (Strat.table [(8, (Strat.table []))]))), (8, (Strat.pick 1 (Strat.table [(7, (Strat.table []))])))]))), (6, (Strat.pick 2 (Strat.table [(1, (Strat.pick 7 (Strat.table [(8, (Strat.table []))]))), (7, (Strat.pick 1 (Strat.table []))), (8, (Strat.pick 1 (Strat.table [])))]))), (7, (Strat.pick 1 (Strat.table [(2, (Strat.pick 6 (Strat.table [(8, (Strat.table []))]))), (6, (Strat.pick 2 (Strat.table []))), (8, (Strat.pick 2 (Strat.table [])))]))), (8, (Strat.pick 1 (Strat.table [(2, (Strat.pick 6 (Strat.table [(7, (Strat.table []))]))), (6, (Strat.pick 2 (Strat.table []))), (7, (Strat.pick 2 (Strat.table [])))])))]))), (5, (Strat.pick 4 (Strat.table [(1, (Strat.pick 2 (Strat.table [(6, (Strat.pick 7 (Strat.table [(8, (Strat.table []))]))), (7, (Strat.pick 6 (Strat.table []))), (8, (Strat.pick 6 (Strat.table [])))]))), (2, (Strat.pick 8 (Strat.table []))), (6, (Strat.pick 1 (Strat.table [(2, (Strat.pick 7 (Strat.table []))), (7, (Strat.pick 2 (Strat.table []))), (8, (Strat.pick 2 (Strat.table [])))]))), (7, (Strat.pick 1 (Strat.table [(2, (Strat.pick 8 (Strat.table []))), (6, (Strat.pick 2 (Strat.table []))), (8, (Strat.pick 2 (Strat.table [])))]))), (8, (Strat.pick 2 (Strat.table [(1, (Strat.pick 6 (Strat.table []))), (6, (Strat.pick 1 (Strat.table []))), (7, (Strat.pick 1 (Strat.table [])))])))]))), (6, (Strat.pick 1 (Strat.table [(2, (Strat.pick 4 (Strat.table [(5, (Strat.pick 7 (Strat.table []))), (7, (Strat.pick 8 (Strat.table []))), (8, (Strat.pick 7 (Strat.table [])))]))), (4, (Strat.pick 2 (Strat.table []))), (5, (Strat.pick 2 (Strat.table []))), (7, (Strat.pick 2 (Strat.table []))), (8, (Strat.pick 2 (Strat.table [])))]))), (7, (Strat.pick 2 (Strat.table [(1, (Strat.pick 4 (Strat.table [(5, (Strat.pick 6 (Strat.table []))), (6, (Strat.pick 8 (Strat.table []))), (8, (Strat.pick 6 (Strat.table [])))]))), (4, (Strat.pick 1 (Strat.table []))), (5, (Strat.pick 1 (Strat.table []))), (6, (Strat.pick 1 (Strat.table []))), (8, (Strat.pick 1 (Strat.table [])))]))), (8, (Strat.pick 2 (Strat.table [(1, (Strat.pick 4 (Strat.table [(5, (Strat.pick 6 (Strat.table []))), (6, (Strat.pick 7 (Strat.table [(5, (Strat.table []))]))), (7, (Strat.pick 6 (Strat.table [])))]))), (4, (Strat.pick 1 (Strat.table []))), (5, (Strat.pick 1 (Strat.table []))), (6, (Strat.pick 1 (Strat.table []))), (7, (Strat.pick 1 (Strat.table [])))])))]))), (4, (Strat.pick 0 (Strat.table [(1, (Strat.pick 7 (Strat.table [(2, (Strat.pick 6 (Strat.table [(3, (Strat.pick 5 (Strat.table [(8, (Strat.table []))]))), (5, (Strat.pick 3 (Strat.table []))), (8, (Strat.pick 3 (Strat.table [])))]))), (3, (Strat.pick 5 (Strat.table [(2, (Strat.pick 6 (Strat.table [(8, (Strat.table []))]))), (6, (Strat.pick 2 (Strat.table [(8, (Strat.table []))]))), (8, (Strat.pick 2 (Strat.table [(6, (Strat.table []))])))]))), (5, (Strat.pick 3 (Strat.table [(2, (Strat.pick 6 (Strat.table []))), (6, (Strat.pick 2 (Strat.table [(8, (Strat.table []))]))), (8, (Strat.pick 2 (Strat.table [(6, (Strat.table []))])))]))), (6, (Strat.pick 2 (Strat.table [(3, (Strat.pick 5 (Strat.table [(8, (Strat.table []))]))), (5, (Strat.pick 3 (Strat.table [(8, (Strat.table []))]))), (8, (Strat.pick 3 (Strat.table [(5, (Strat.table []))])))]))), (8, (Strat.pick 2 (Strat.table [(3, (Strat.pick 5 (Strat.table [(6, (Strat.table []))]))), (5, (Strat.pick 3 (Strat.table [(6, (Strat.table []))]))), (6, (Strat.pick 3 (Strat.table [(5, (Strat.table []))])))])))]))), (2, (Strat.pick 6 (Strat.table [(1, (Strat.pick 3 (Strat.table []))), (3, (Strat.pick 5 (Strat.table [(1, (Strat.pick 7 (Strat.table [(8, (Strat.table []))]))), (7, (Strat.pick 1 (Strat.table [(8, (Strat.table []))]))), (8, (Strat.pick 1 (Strat.table [(7, (Strat.table []))])))]))), (5, (Strat.pick 3 (Strat.table []))), (7, (Strat.pick 1 (Strat.table [(3, (Strat.pick 5 (Strat.table [(8, (Strat.table []))]))), (5, (Strat.pick 3 (Strat.table []))), (8, (Strat.pick 3 (Strat.table [])))]))), (8, (Strat.pick 3 (Strat.table [])))]))), (3, (Strat.pick 5 (Strat.table [(1, (Strat.pick 7 (Strat.table [(2, (Strat.pick 6 (Strat.table [(8, (Strat.table []))]))), (6, (Strat.pick 2 (Strat.table [(8, (Strat.table []))]))), (8, (Strat.pick 2 (Strat.table [(6, (Strat.table []))])))]))), (2, (Strat.pick 6 (Strat.table [(1, (Strat.pick 7 (Strat.table [(8, (Strat.table []))]))), (7, (Strat.pick 1 (Strat.table [(8, (Strat.table []))]))), (8, (Strat.pick 1 (Strat.table [(7, (Strat.table []))])))]))), (6, (Strat.pick 2 (Strat.table [(1, (Strat.pick 7 (Strat.table [(8, (Strat.table []))]))), (7, (Strat.pick 1 (Strat.table []))), (8, (Strat.pick 1 (Strat.table [])))]))), (7, (Strat.pick 1 (Strat.table [(2, (Strat.pick 6 (Strat.table [(8, (Strat.table []))]))), (6, (Strat.pick 2 (Strat.table []))), (8, (Strat.pick 2 (Strat.table [])))]))), (8, (Strat.pick 1 (Strat.table [(2, (Strat.pick 6 (Strat.table [(7, (Strat.table []))]))), (6, (Strat.pick 2 (Strat.table []))), (7, (Strat.pick 2 (Strat.table [])))])))]))), (5, (Strat.pick 3 (Strat.table [(1, (Strat.pick 6 (Strat.table []))), (2, (Strat.pick 6 (Strat.table []))), (6, (Strat.pick 2 (Strat.table [(1, (Strat.pick 7 (Strat.table [(8, (Strat.table []))]))), (7, (Strat.pick 1 (Strat.table []))), (8, (Strat.pick 1 (Strat.table [])))]))), (7, (Strat.pick 1 (Strat.table [(2, (Strat.pick 6 (Strat.table []))), (6, (Strat.pick 2 (Strat.table []))), (8, (Strat.pick 2 (Strat.table [])))]))), (8, (Strat.pick 2 (Strat.table [(1, (Strat.pick 6 (Strat.table []))), (6, (Strat.pick 1 (Strat.table []))), (7, (Strat.pick 1 (Strat.table [])))])))]))), (6, (Strat.pick 2 (Strat.table [(1, (Strat.pick 7 (Strat.table [(3, (Strat.pick 5 (Strat.table [(8, (Strat.table []))]))), (5, (Strat.pick 3 (Strat.table [(8, (Strat.table []))]))), (8, (Strat.pick 3 (Strat.table [(5, (Strat.table []))])))]))), (3, (Strat.pick 1 (Strat.table []))), (5, (Strat.pick 1 (Strat.table []))), (7, (Strat.pick 1 (Strat.table []))), (8, (Strat.pick 1 (Strat.table [])))]))), (7, (Strat.pick 1 (Strat.table [(2, (Strat.pick 6 (Strat.table [(3, (Strat.pick 5 (Strat.table [(8, (Strat.table []))]))), (5, (Strat.pick 3 (Strat.table []))), (8, (Strat.pick 3 (Strat.table [])))]))), (3, (Strat.pick 2 (Strat.table []))), (5, (Strat.pick 2 (Strat.table []))), (6, (Strat.pick 2 (Strat.table []))), (8, (Strat.pick 2 (Strat.table [])))]))), (8, (Strat.pick 2 (Strat.table [(1, (Strat.pick 7 (Strat.table [(3, (Strat.pick 5 (Strat.table [(6, (Strat.table []))]))), (5, (Strat.pick 3 (Strat.table [(6, (Strat.table []))]))), (6, (Strat.pick 3 (Strat.table [(5, (Strat.table []))])))]))), (3, (Strat.pick 1 (Strat.table []))), (5, (Strat.pick 1 (Strat.table []))), (6, (Strat.pick 1 (Strat.table []))), (7, (Strat.pick 1 (Strat.table [])))])))]))), (5, (Strat.pick 2 (Strat.table [(0, (Strat.pick 3 (Strat.table [(1, (Strat.pick 4 (Strat.table [(6, (Strat.pick 7 (Strat.table [(8, (Strat.table []))]))), (7, (Strat.pick 6 (Strat.table []))), (8, (Strat.pick 6 (Strat.table [])))]))), (4, (Strat.pick 8 (Strat.table [(1, (Strat.pick 7 (Strat.table [(6, (Strat.table []))]))), (6, (Strat.pick 1 (Strat.table [(7, (Strat.table []))]))), (7, (Strat.pick 1 (Strat.table [(6, (Strat.table []))])))]))), (6, (Strat.pick 4 (Strat.table [(1, (Strat.pick 7 (Strat.table [(8, (Strat.table []))]))), (7, (Strat.pick 8 (Strat.table [(1, (Strat.table []))]))), (8, (Strat.pick 7 (Strat.table [(1, (Strat.table []))])))]))), (7, (Strat.pick 4 (Strat.table [(1, (Strat.pick 6 (Strat.table []))), (6, (Strat.pick 8 (Strat.table [(1, (Strat.table []))]))), (8, (Strat.pick 6 (Strat.table [])))]))), (8, (Strat.pick 4 (Strat.table [(1, (Strat.pick 6 (Strat.table []))), (6, (Strat.pick 7 (Strat.table [(1, (Strat.table []))]))), (7, (Strat.pick 6 (Strat.table [])))])))]))), (1, (Strat.pick 3 (Strat.table [(0, (Strat.pick 4 (Strat.table [(6, (Strat.pick 7 (Strat.table [(8, (Strat.table []))]))), (7, (Strat.pick 6 (Strat.table []))), (8, (Strat.pick 6 (Strat.table [])))]))), (4, (Strat.pick 7 (Strat.table [(0, (Strat.pick 8 (Strat.table [(6, (Strat.table []))]))), (6, (Strat.pick 0 (Strat.table [(8, (Strat.table []))]))), (8, (Strat.pick 0 (Strat.table [(6, (Strat.table []))])))]))), (6, (Strat.pick 4 (Strat.table [(0, (Strat.pick 7 (Strat.table [(8, (Strat.table []))]))), (7, (Strat.pick 8 (Strat.table [(0, (Strat.table []))]))), (8, (Strat.pick 7 (Strat.table [(0, (Strat.table []))])))]))), (7, (Strat.pick 4 (Strat.table [(0, (Strat.pick 6 (Strat.table []))), (6, (Strat.pick 8 (Strat.table [(0, (Strat.table []))]))), (8, (Strat.pick 6 (Strat.table [])))]))), (8, (Strat.pick 0 (Strat.table [(4, (Strat.pick 6 (Strat.table []))), (6, (Strat.pick 7 (Strat.table [(4, (Strat.table []))]))), (7, (Strat.pick 6 (Strat.table [])))])))]))), (3, (Strat.pick 4 (Strat.table [(0, (Strat.pick 6 (Strat.table []))), (1, (Strat.pick 0 (Strat.table [(6, (Strat.pick 7 (Strat.table [(8, (Strat.table []))]))), (7, (Strat.pick 6 (Strat.table []))), (8, (Strat.pick 6 (Strat.table [])))]))), (6, (Strat.pick 0 (Strat.table [(1, (Strat.pick 7 (Strat.table [(8, (Strat.table []))]))), (7, (Strat.pick 1 (Strat.table []))), (8, (Strat.pick 1 (Strat.table [])))]))), (7, (Strat.pick 0 (Strat.table [(1, (Strat.pick 6 (Strat.table []))), (6, (Strat.pick 1 (Strat.table []))), (8, (Strat.pick 1 (Strat.table [])))]))), (8, (Strat.pick 0 (Strat.table [(1, (Strat.pick 6 (Strat.table []))), (6, (Strat.pick 1 (Strat.table []))), (7, (Strat.pick 1 (Strat.table [])))])))]))), (4, (Strat.pick 3 (Strat.table [(0, (Strat.pick 8 (Strat.table [(1, (Strat.pick 7 (Strat.table [(6, (Strat.table []))]))), (6, (Strat.pick 1 (Strat.table [(7, (Strat.table []))]))), (7, (Strat.pick 1 (Strat.table [(6, (Strat.table []))])))]))), (1, (Strat.pick 7 (Strat.table [(0, (Strat.pick 8 (Strat.table [(6, (Strat.table []))]))), (6, (Strat.pick 0 (Strat.table [(8, (Strat.table []))]))), (8, (Strat.pick 0 (Strat.table [(6, (Strat.table []))])))]))), (6, (Strat.pick 0 (Strat.table [(1, (Strat.pick 7 (Strat.table [(8, (Strat.table []))]))), (7, (Strat.pick 1 (Strat.table []))), (8, (Strat.pick 1 (Strat.table [])))]))), (7, (Strat.pick 1 (Strat.table [(0, (Strat.pick 8 (Strat.table [(6, (Strat.table []))]))), (6, (Strat.pick 0 (Strat.table []))), (8, (Strat.pick 0 (Strat.table [])))]))), (8, (Strat.pick 0 (Strat.table [(1, (Strat.pick 6 (Strat.table []))), (6, (Strat.pick 1 (Strat.table []))), (7, (Strat.pick 1 (Strat.table [])))])))]))), (6, (Strat.pick 0 (Strat.table [(1, (Strat.pick 4 (Strat.table [(3, (Strat.pick 7 (Strat.table [(8, (Strat.table []))]))), (7, (Strat.pick 8 (Strat.table []))), (8, (Strat.pick 7 (Strat.table [(3, (Strat.table []))])))]))), (3, (Strat.pick 1 (Strat.table []))), (4, (Strat.pick 1 (Strat.table []))), (7, (Strat.pick 1 (Strat.table []))), (8, (Strat.pick 1 (Strat.table [])))]))), (7, (Strat.pick 0 (Strat.table [(1, (Strat.pick 4 (Strat.table [(3, (Strat.pick 6 (Strat.table []))), (6, (Strat.pick 8 (Strat.table []))), (8, (Strat.pick 6 (Strat.table [])))]))), (3, (Strat.pick 1 (Strat.table []))), (4, (Strat.pick 1 (Strat.table []))), (6, (Strat.pick 1 (Strat.table []))), (8, (Strat.pick 1 (Strat.table [])))]))), (8, (Strat.pick 0 (Strat.table [(1, (Strat.pick 3 (Strat.table [(4, (Strat.pick 6 (Strat.table []))), (6, (Strat.pick 7 (Strat.table [(4, (Strat.table []))]))), (7, (Strat.pick 6 (Strat.table [])))]))), (3, (Strat.pick 1 (Strat.table []))), (4, (Strat.pick 1 (Strat.table []))), (6, (Strat.pick 1 (Strat.table []))), (7, (Strat.pick 1 (Strat.table [])))])))]))), (6, (Strat.pick 4 (Strat.table [(0, (Strat.pick 3 (Strat.table [(1, (Strat.pick 2 (Strat.table [(5, (Strat.pick 7 (Strat.table [(8, (Strat.table []))]))), (7, (Strat.pick 5 (Strat.table []))), (8, (Strat.pick 5 (Strat.table [])))]))), (2, (Strat.pick 1 (Strat.table [(5, (Strat.pick 7 (Strat.table []))), (7, (Strat.pick 5 (Strat.table []))), (8, (Strat.pick 5 (Strat.table [])))]))), (5, (Strat.pick 1 (Strat.table [(2, (Strat.pick 7 (Strat.table []))), (7, (Strat.pick 8 (Strat.table [(2, (Strat.table []))]))), (8, (Strat.pick 7 (Strat.table [])))]))), (7, (Strat.pick 5 (Strat.table []))), (8, (Strat.pick 5 (Strat.table [])))]))), (1, (Strat.pick 0 (Strat.table [(2, (Strat.pick 3 (Strat.table [(5, (Strat.pick 8 (Strat.table []))), (7, (Strat.pick 5 (Strat.table []))), (8, (Strat.pick 5 (Strat.table [])))]))), (3, (Strat.pick 2 (Strat.table [(5, (Strat.pick 7 (Strat.table [(8, (Strat.table []))]))), (7, (Strat.pick 8 (Strat.table []))), (8, (Strat.pick 7 (Strat.table [(5, (Strat.table []))])))]))), (5, (Strat.pick 2 (Strat.table [(3, (Strat.pick 7 (Strat.table [(8, (Strat.table []))]))), (7, (Strat.pick 8 (Strat.table []))), (8, (Strat.pick 7 (Strat.table [(3, (Strat.table []))])))]))), (7, (Strat.pick 8 (Strat.table []))), (8, (Strat.pick 7 (Strat.table [(2, (Strat.pick 5 (Strat.table [(3, (Strat.table []))]))), (3, (Strat.pick 2 (Strat.table [(5, (Strat.table []))]))), (5, (Strat.pick 2 (Strat.table [(3, (Strat.table []))])))])))]))), (2, (Strat.pick 1 (Strat.table [(0, (Strat.pick 3 (Strat.table [(5, (Strat.pick 7 (Strat.table []))), (7, (Strat.pick 5 (Strat.table []))), (8, (Strat.pick 5 (Strat.table [])))]))), (3, (Strat.pick 0 (Strat.table [(5, (Strat.pick 7 (Strat.table []))), (7, (Strat.pick 8 (Strat.table []))), (8, (Strat.pick 7 (Strat.table [])))]))), (5, (Strat.pick 7 (Strat.table []))), (7, (Strat.pick 8 (Strat.table [(0, (Strat.pick 3 (Strat.table [(5, (Strat.table []))]))), (3, (Strat.pick 0 (Strat.table []))), (5, (Strat.pick 0 (Strat.table [])))]))), (8, (Strat.pick 7 (Strat.table [])))]))), (3, (Strat.pick 0 (Strat.table [(1, (Strat.pick 2 (Strat.table [(5, (Strat.pick 7 (Strat.table [(8, (Strat.table []))]))), (7, (Strat.pick 8 (Strat.table []))), (8, (Strat.pick 7 (Strat.table [(5, (Strat.table []))])))]))), (2, (Strat.pick 1 (Strat.table [(5, (Strat.pick 7 (Strat.table []))), (7, (Strat.pick 8 (Strat.table []))), (8, (Strat.pick 7 (Strat.table [])))]))), (5, (Strat.pick 1 (Strat.table [(2, (Strat.pick 7 (Strat.table []))), (7, (Strat.pick 2 (Strat.table []))), (8, (Strat.pick 2 (Strat.table [])))]))), (7, (Strat.pick 8 (Strat.table []))), (8, (Strat.pick 7 (Strat.table [(1, (Strat.pick 2 (Strat.table [(5, (Strat.table []))]))), (2, (Strat.pick 1 (Strat.table []))), (5, (Strat.pick 1 (Strat.table [])))])))]))), (5, (Strat.pick 1 (Strat.table [(0, (Strat.pick 3 (Strat.table [(2, (Strat.pick 7 (Strat.table []))), (7, (Strat.pick 8 (Strat.table [(2, (Strat.table []))]))), (8, (Strat.pick 7 (Strat.table [])))]))), (2, (Strat.pick 7 (Strat.table []))), (3, (Strat.pick 0 (Strat.table [(2, (Strat.pick 7 (Strat.table []))), (7, (Strat.pick 2 (Strat.table []))), (8, (Strat.pick 2 (Strat.table [])))]))), (7, (Strat.pick 8 (Strat.table [(0, (Strat.pick 3 (Strat.table [(2, (Strat.table []))]))), (2, (Strat.pick 0 (Strat.table []))), (3, (Strat.pick 0 (Strat.table [])))]))), (8, (Strat.pick 7 (Strat.table [])))]))), (7, (Strat.pick 8 (Strat.table [(0, (Strat.pick 3 (Strat.table [(1, (Strat.pick 2 (Strat.table [(5, (Strat.table []))]))), (2, (Strat.pick 1 (Strat.table [(5, (Strat.table []))]))), (5, (Strat.pick 1 (Strat.table [(2, (Strat.table []))])))]))), (1, (Strat.pick 0 (Strat.table []))), (2, (Strat.pick 0 (Strat.table []))), (3, (Strat.pick 0 (Strat.table []))), (5, (Strat.pick 0 (Strat.table [])))]))), (8, (Strat.pick 7 (Strat.table [(0, (Strat.pick 1 (Strat.table []))), (1, (Strat.pick 0 (Strat.table [(2, (Strat.pick 5 (Strat.table [(3, (Strat.table []))]))), (3, (Strat.pick 2 (Strat.table [(5, (Strat.table []))]))), (5, (Strat.pick 2 (Strat.table [(3, (Strat.table []))])))]))), (2, (Strat.pick 1 (Strat.table []))), (3, (Strat.pick 0 (Strat.table [(1, (Strat.pick 2 (Strat.table [(5, (Strat.table []))]))), (2, (Strat.pick 1 (Strat.table []))), (5, (Strat.pick 1 (Strat.table [])))]))), (5, (Strat.pick 1 (Strat.table [])))])))]))), (7, (Strat.pick 1 (Strat.table [(0, (Strat.pick 6 (Strat.table [(2, (Strat.pick 4 (Strat.table [(3, (Strat.pick 5 (Strat.table [(8, (Strat.table []))]))), (5, (Strat.pick 8 (Strat.table [(3, (Strat.table []))]))), (8, (Strat.pick 5 (Strat.table [(3, (Strat.table []))])))]))), (3, (Strat.pick 4 (Strat.table [(2, (Strat.pick 5 (Strat.table [(8, (Strat.table []))]))), (5, (Strat.pick 2 (Strat.table []))), (8, (Strat.pick 2 (Strat.table [])))]))), (4, (Strat.pick 8 (Strat.table [(2, (Strat.pick 3 (Strat.table [(5, (Strat.table []))]))), (3, (Strat.pick 5 (Strat.table [(2, (Strat.table []))]))), (5, (Strat.pick 3 (Strat.table [(2, (Strat.table []))])))]))), (5, (Strat.pick 4 (Strat.table [(2, (Strat.pick 8 (Strat.table [(3, (Strat.table []))]))), (3, (Strat.pick 2 (Strat.table []))), (8, (Strat.pick 2 (Strat.table [])))]))), (8, (Strat.pick 4 (Strat.table [(2, (Strat.pick 5 (Strat.table [(3, (Strat.table []))]))), (3, (Strat.pick 2 (Strat.table []))), (5, (Strat.pick 2 (Strat.table [])))])))]))), (2, (Strat.pick 6 (Strat.table [(0, (Strat.pick 4 (Strat.table [(3, (Strat.pick 5 (Strat.table [(8, (Strat.table []))]))), (5, (Strat.pick 8 (Strat.table [(3, (Strat.table []))]))), (8, (Strat.pick 5 (Strat.table [(3, (Strat.table []))])))]))), (3, (Strat.pick 4 (Strat.table [(0, (Strat.pick 5 (Strat.table [(8, (Strat.table []))]))), (5, (Strat.pick 8 (Strat.table [(0, (Strat.table []))]))), (8, (Strat.pick 5 (Strat.table [(0, (Strat.table []))])))]))), (4, (Strat.pick 0 (Strat.table [(3, (Strat.pick 5 (Strat.table [(8, (Strat.table []))]))), (5, (Strat.pick 3 (Strat.table []))), (8, (Strat.pick 3 (Strat.table [])))]))), (5, (Strat.pick 8 (Strat.table [(0, (Strat.pick 3 (Strat.table [(4, (Strat.table []))]))), (3, (Strat.pick 4 (Strat.table [(0, (Strat.table []))]))), (4, (Strat.pick 3 (Strat.table [(0, (Strat.table []))])))]))), (8, (Strat.pick 5 (Strat.table [(0, (Strat.pick 4 (Strat.table [(3, (Strat.table []))]))), (3, (Strat.pick 0 (Strat.table [(4, (Strat.table []))]))), (4, (Strat.pick 0 (Strat.table [(3, (Strat.table []))])))])))]))), (3, (Strat.pick 6 (Strat.table [(0, (Strat.pick 4 (Strat.table [(2, (Strat.pick 5 (Strat.table [(8, (Strat.table []))]))), (5, (Strat.pick 2 (Strat.table []))), (8, (Strat.pick 2 (Strat.table [])))]))), (2, (Strat.pick 4 (Strat.table [(0, (Strat.pick 5 (Strat.table [(8, (Strat.table []))]))), (5, (Strat.pick 8 (Strat.table [(0, (Strat.table []))]))), (8, (Strat.pick 5 (Strat.table [(0, (Strat.table []))])))]))), (4, (Strat.pick 5 (Strat.table [(0, (Strat.pick 8 (Strat.table [(2, (Strat.table []))]))), (2, (Strat.pick 0 (Strat.table [(8, (Strat.table []))]))), (8, (Strat.pick 0 (Strat.table [(2, (Strat.table []))])))]))), (5, (Strat.pick 4 (Strat.table [(0, (Strat.pick 2 (Strat.table []))), (2, (Strat.pick 8 (Strat.table [(0, (Strat.table []))]))), (8, (Strat.pick 2 (Strat.table [])))]))), (8, (Strat.pick 0 (Strat.table [(2, (Strat.pick 5 (Strat.table [(4, (Strat.table []))]))), (4, (Strat.pick 2 (Strat.table []))), (5, (Strat.pick 2 (Strat.table [])))])))]))), (4, (Strat.pick 0 (Strat.table [(2, (Strat.pick 6 (Strat.table [(3, (Strat.pick 5 (Strat.table [(8, (Strat.table []))]))), (5, (Strat.pick 3 (Strat.table []))), (8, (Strat.pick 3 (Strat.table [])))]))), (3, (Strat.pick 2 (Strat.table []))), (5, (Strat.pick 2 (Strat.table []))), (6, (Strat.pick 2 (Strat.table []))), (8, (Strat.pick 2 (Strat.table [])))]))), (5, (Strat.pick 6 (Strat.table [(0, (Strat.pick 4 (Strat.table [(2, (Strat.pick 8 (Strat.table [(3, (Strat.table []))]))), (3, (Strat.pick 2 (Strat.table []))), (8, (Strat.pick 2 (Strat.table [])))]))), (2, (Strat.pick 8 (Strat.table [(0, (Strat.pick 3 (Strat.table [(4, (Strat.table []))]))), (3, (Strat.pick 4 (Strat.table [(0, (Strat.table []))]))), (4, (Strat.pick 3 (Strat.table [(0, (Strat.table []))])))]))), (3, (Strat.pick 4 (Strat.table [(0, (Strat.pick 2 (Strat.table []))), (2, (Strat.pick 8 (Strat.table [(0, (Strat.table []))]))), (8, (Strat.pick 2 (Strat.table [])))]))), (4, (Strat.pick 3 (Strat.table [(0, (Strat.pick 8 (Strat.table [(2, (Strat.table []))]))), (2, (Strat.pick 0 (Strat.table []))), (8, (Strat.pick 0 (Strat.table [])))]))), (8, (Strat.pick 2 (Strat.table [(0, (Strat.pick 4 (Strat.table []))), (3, (Strat.pick 0 (Strat.table []))), (4, (Strat.pick 0 (Strat.table [])))])))]))), (6, (Strat.pick 8 (Strat.table [(0, (Strat.pick 3 (Strat.table [(2, (Strat.pick 4 (Strat.table [(5, (Strat.table []))]))), (4, (Strat.pick 2 (Strat.table [(5, (Strat.table []))]))), (5, (Strat.pick 2 (Strat.table [(4, (Strat.table []))])))]))), (2, (Strat.pick 4 (Strat.table [(0, (Strat.pick 3 (Strat.table [(5, (Strat.table []))]))), (3, (Strat.pick 0 (Strat.table []))), (5, (Strat.pick 0 (Strat.table [])))]))), (3, (Strat.pick 0 (Strat.table [(2, (Strat.pick 4 (Strat.table []))), (4, (Strat.pick 2 (Strat.table []))), (5, (Strat.pick 2 (Strat.table [])))]))), (4, (Strat.pick 2 (Strat.table [(0, (Strat.pick 3 (Strat.table [(5, (Strat.table []))]))), (3, (Strat.pick 0 (Strat.table []))), (5, (Strat.pick 0 (Strat.table [])))]))), (5, (Strat.pick 0 (Strat.table [(2, (Strat.pick 4 (Strat.table []))), (3, (Strat.pick 2 (Strat.table []))), (4, (Strat.pick 2 (Strat.table [])))])))]))), (8, (Strat.pick 6 (Strat.table [(0, (Strat.pick 4 (Strat.table [(2, (Strat.pick 5 (Strat.table [(3, (Strat.table []))]))), (3, (Strat.pick 2 (Strat.table []))), (5, (Strat.pick 2 (Strat.table [])))]))), (2, (Strat.pick 5 (Strat.table [(0, (Strat.pick 4 (Strat.table [(3, (Strat.table []))]))), (3, (Strat.pick 0 (Strat.table [(4, (Strat.table []))]))), (4, (Strat.pick 0 (Strat.table [(3, (Strat.table []))])))]))), (3, (Strat.pick 0 (Strat.table [(2, (Strat.pick 5 (Strat.table [(4, (Strat.table []))]))), (4, (Strat.pick 2 (Strat.table []))), (5, (Strat.pick 2 (Strat.table [])))]))), (4, (Strat.pick 0 (Strat.table [(2, (Strat.pick 3 (Strat.table []))), (3, (Strat.pick 2 (Strat.table []))), (5, (Strat.pick 2 (Strat.table [])))]))), (5, (Strat.pick 2 (Strat.table [(0, (Strat.pick 4 (Strat.table []))), (3, (Strat.pick 0 (Strat.table []))), (4, (Strat.pick 0 (Strat.table [])))])))])))]))), (8, (Strat.pick 4 (Strat.table [(0, (Strat.pick 1 (Strat.table [(2, (Strat.pick 5 (Strat.table [(3, (Strat.pick 6 (Strat.table [(7, (Strat.table []))]))), (6, (Strat.pick 3 (Strat.table []))), (7, (Strat.pick 3 (Strat.table [])))]))), (3, (Strat.pick 6 (Strat.table [(2, (Strat.pick 5 (Strat.table [(7, (Strat.table []))]))), (5, (Strat.pick 2 (Strat.table []))), (7, (Strat.pick 2 (Strat.table [])))]))), (5, (Strat.pick 2 (Strat.table [(3, (Strat.pick 6 (Strat.table []))), (6, (Strat.pick 7 (Strat.table []))), (7, (Strat.pick 6 (Strat.table [])))]))), (6, (Strat.pick 7 (Strat.table []))), (7, (Strat.pick 6 (Strat.table [(2, (Strat.pick 5 (Strat.table [(3, (Strat.table []))]))), (3, (Strat.pick 2 (Strat.table []))), (5, (Strat.pick 2 (Strat.table [])))])))]))), (1, (Strat.pick 0 (Strat.table [(2, (Strat.pick 5 (Strat.table [(3, (Strat.pick 6 (Strat.table [(7, (Strat.table []))]))), (6, (Strat.pick 3 (Strat.table []))), (7, (Strat.pick 3 (Strat.table [])))]))), (3, (Strat.pick 2 (Strat.table [(5, (Strat.pick 6 (Strat.table []))), (6, (Strat.pick 7 (Strat.table [(5, (Strat.table []))]))), (7, (Strat.pick 6 (Strat.table [])))]))), (5, (Strat.pick 2 (Strat.table [(3, (Strat.pick 6 (Strat.table []))), (6, (Strat.pick 7 (Strat.table [(3, (Strat.table []))]))), (7, (Strat.pick 6 (Strat.table [])))]))), (6, (Strat.pick 7 (Strat.table [(2, (Strat.pick 5 (Strat.table [(3, (Strat.table []))]))), (3, (Strat.pick 2 (Strat.table [(5, (Strat.table []))]))), (5, (Strat.pick 2 (Strat.table [(3, (Strat.table []))])))]))), (7, (Strat.pick 6 (Strat.table [(2, (Strat.pick 3 (Strat.table []))), (3, (Strat.pick 2 (Strat.table []))), (5, (Strat.pick 2 (Strat.table [])))])))]))), (2, (Strat.pick 5 (Strat.table [(0, (Strat.pick 1 (Strat.table [(3, (Strat.pick 6 (Strat.table [(7, (Strat.table []))]))), (6, (Strat.pick 3 (Strat.table []))), (7, (Strat.pick 3 (Strat.table [])))]))), (1, (Strat.pick 0 (Strat.table [(3, (Strat.pick 6 (Strat.table [(7, (Strat.table []))]))), (6, (Strat.pick 3 (Strat.table []))), (7, (Strat.pick 3 (Strat.table [])))]))), (3, (Strat.pick 0 (Strat.table [(1, (Strat.pick 6 (Strat.table [(7, (Strat.table []))]))), (6, (Strat.pick 7 (Strat.table [(1, (Strat.table []))]))), (7, (Strat.pick 6 (Strat.table [(1, (Strat.table []))])))]))), (6, (Strat.pick 3 (Strat.table []))), (7, (Strat.pick 3 (Strat.table [])))]))), (3, (Strat.pick 0 (Strat.table [(1, (Strat.pick 2 (Strat.table [(5, (Strat.pick 6 (Strat.table []))), (6, (Strat.pick 7 (Strat.table [(5, (Strat.table []))]))), (7, (Strat.pick 6 (Strat.table [])))]))), (2, (Strat.pick 5 (Strat.table [(1, (Strat.pick 6 (Strat.table [(7, (Strat.table []))]))), (6, (Strat.pick 7 (Strat.table [(1, (Strat.table []))]))), (7, (Strat.pick 6 (Strat.table [(1, (Strat.table []))])))]))), (5, (Strat.pick 2 (Strat.table [(1, (Strat.pick 6 (Strat.table []))), (6, (Strat.pick 1 (Strat.table []))), (7, (Strat.pick 1 (Strat.table [])))]))), (6, (Strat.pick 7 (Strat.table [(1, (Strat.pick 2 (Strat.table [(5, (Strat.table []))]))), (2, (Strat.pick 1 (Strat.table []))), (5, (Strat.pick 1 (Strat.table [])))]))), (7, (Strat.pick 6 (Strat.table [(1, (Strat.pick 2 (Strat.table []))), (2, (Strat.pick 5 (Strat.table [(1, (Strat.table []))]))), (5, (Strat.pick 2 (Strat.table [])))])))]))), (5, (Strat.pick 2 (Strat.table [(0, (Strat.pick 1 (Strat.table [(3, (Strat.pick 6 (Strat.table []))), (6, (Strat.pick 7 (Strat.table []))), (7, (Strat.pick 6 (Strat.table [])))]))), (1, (Strat.pick 0 (Strat.table [(3, (Strat.pick 6 (Strat.table []))), (6, (Strat.pick 7 (Strat.table [(3, (Strat.table []))]))), (7, (Strat.pick 6 (Strat.table [])))]))), (3, (Strat.pick 0 (Strat.table [(1, (Strat.pick 6 (Strat.table []))), (6, (Strat.pick 1 (Strat.table []))), (7, (Strat.pick 1 (Strat.table [])))]))), (6, (Strat.pick 7 (Strat.table [(0, (Strat.pick 1 (Strat.table []))), (1, (Strat.pick 0 (Strat.table [(3, (Strat.table []))]))), (3, (Strat.pick 0 (Strat.table [(1, (Strat.table []))])))]))), (7, (Strat.pick 6 (Strat.table [])))]))), (6, (Strat.pick 7 (Strat.table [(0, (Strat.pick 1 (Strat.table []))), (1, (Strat.pick 0 (Strat.table [(2, (Strat.pick 5 (Strat.table [(3, (Strat.table []))]))), (3, (Strat.pick 2 (Strat.table [(5, (Strat.table []))]))), (5, (Strat.pick 2 (Strat.table [(3, (Strat.table []))])))]))), (2, (Strat.pick 1 (Strat.table []))), (3, (Strat.pick 0 (Strat.table [(1, (Strat.pick 2 (Strat.table [(5, (Strat.table []))]))), (2, (Strat.pick 1 (Strat.table []))), (5, (Strat.pick 1 (Strat.table [])))]))), (5, (Strat.pick 1 (Strat.table [])))]))), (7, (Strat.pick 6 (Strat.table [(0, (Strat.pick 1 (Strat.table [(2, (Strat.pick 5 (Strat.table [(3, (Strat.table []))]))), (3, (Strat.pick 2 (Strat.table []))), (5, (Strat.pick 2 (Strat.table [])))]))), (1, (Strat.pick 0 (Strat.table [(2, (Strat.pick 3 (Strat.table []))), (3, (Strat.pick 2 (Strat.table []))), (5, (Strat.pick 2 (Strat.table [])))]))), (2, (Strat.pick 5 (Strat.table [(0, (Strat.pick 1 (Strat.table [(3, (Strat.table []))]))), (1, (Strat.pick 0 (Strat.table [(3, (Strat.table []))]))), (3, (Strat.pick 0 (Strat.table [(1, (Strat.table []))])))]))), (3, (Strat.pick 0 (Strat.table [(1, (Strat.pick 2 (Strat.table []))), (2, (Strat.pick 5 (Strat.table [(1, (Strat.table []))]))), (5, (Strat.pick 2 (Strat.table [])))]))), (5, (Strat.pick 2 (Strat.table [])))])))])))])

/-! ## Basic lemmas: players, folds, boards -/

theorem Player.opponent_opponent (p : Player) : p.opponent.opponent = p := by
  cases p <;> rfl

theorem Player.opponent_ne (p : Player) : p.opponent ≠ p := by
  cases p <;> decide

theorem Player.eq_or_opponent (root p : Player) : p = root ∨ p = root.opponent := by
  cases root <;> cases p <;> simp [Player.opponent]

theorem le_foldl_max (l : List Int) (init : Int) : init ≤ l.foldl max init := by
  induction l generalizing init with
  | nil => exact le_refl _
  | cons x xs ih => exact le_trans (le_max_left _ _) (ih _)

theorem mem_le_foldl_max (l : List Int) (init x : Int) (hx : x ∈ l) :
    x ≤ l.foldl max init := by
  induction l generalizing init with
  | nil => cases hx
  | cons y ys ih =>
    rcases List.mem_cons.mp hx with h | h
    · subst h; exact le_trans (le_max_right _ _) (le_foldl_max _ _)
    · exact ih _ h

theorem foldl_max_le (l : List Int) (init c : Int) (h0 : init ≤ c)
    (h : ∀ x ∈ l, x ≤ c) : l.foldl max init ≤ c := by
  induction l generalizing init with
  | nil => exact h0
  | cons y ys ih =>
    exact ih _ (max_le h0 (h y (List.mem_cons_self _ _)))
      (fun x hx => h x (List.mem_cons_of_mem _ hx))

theorem foldl_max_mono_init (l : List Int) (a b : Int) (h : a ≤ b) :
    l.foldl max a ≤ l.foldl max b := by
  induction l generalizing a b with
  | nil => exact h
  | cons y ys ih => exact ih _ _ (max_le_max h (le_refl _))

theorem foldl_max_le_max (l : List Int) (a b c : Int) (h : b ≤ max a c) :
    l.foldl max b ≤ max (l.foldl max a) c := by
  induction l generalizing a b with
  | nil => exact h
  | cons y ys ih =>
    apply ih
    have h1 : max a y ≤ max (max a y) c := le_max_left _ _
    have h2 : y ≤ max (max a y) c := le_trans (le_max_right a y) h1
    have h3 : max a c ≤ max (max a y) c :=
      max_le (le_trans (le_max_left a y) h1) (le_max_right _ _)
    exact max_le (le_trans h h3) h2

theorem foldl_min_ge (l : List Int) (init c : Int) (h0 : c ≤ init)
    (h : ∀ x ∈ l, c ≤ x) : c ≤ l.foldl min init := by
  induction l generalizing init with
  | nil => exact h0
  | cons y ys ih =>
    exact ih _ (le_min h0 (h y (List.mem_cons_self _ _)))
      (fun x hx => h x (List.mem_cons_of_mem _ hx))

theorem foldl_min_le_init (l : List Int) (init : Int) : l.foldl min init ≤ init := by
  induction l generalizing init with
  | nil => exact le_refl _
  | cons x xs ih => exact le_trans (ih _) (min_le_left _ _)

theorem foldl_min_le_mem (l : List Int) (init x : Int) (hx : x ∈ l) :
    l.foldl min init ≤ x := by
  induction l generalizing init with
  | nil => cases hx
  | cons y ys ih =>
    rcases List.mem_cons.mp hx with h | h
    · subst h
      show ys.foldl min (min init x) ≤ x
      exact le_trans (foldl_min_le_init ys (min init x)) (min_le_right init x)
    · exact ih _ h

theorem foldl_min_mono_init (l : List Int) (a b : Int) (h : a ≤ b) :
    l.foldl min a ≤ l.foldl min b := by
  induction l generalizing a b with
  | nil => exact h
  | cons y ys ih => exact ih _ _ (min_le_min h (le_refl _))

theorem min_foldl_min_le (l : List Int) (a b c : Int) (h : min a c ≤ b) :
    min (l.foldl min a) c ≤ l.foldl min b := by
  induction l generalizing a b with
  | nil => exact h
  | cons y ys ih =>
    apply ih
    have h1 : min (min a y) c ≤ min a y := min_le_left _ _
    have h2 : min (min a y) c ≤ y := le_trans h1 (min_le_right a y)
    have h3 : min (min a y) c ≤ min a c :=
      le_min (le_trans h1 (min_le_left a y)) (min_le_right _ _)
    exact le_min (le_trans h3 h) h2

theorem foldl_min_neg (l : List Int) (a : Int) :
    (l.map (fun x => -x)).foldl min (-a) = -(l.foldl max a) := by
  induction l generalizing a with
  | nil => rfl
  | cons x xs ih =>
    simp only [List.map_cons, List.foldl_cons]
    rw [min_neg_neg]
    exact ih _

theorem mem_availableMoves {board : Board} {i : Nat} :
    i ∈ availableMoves board ↔ i < board.length ∧ getCell board i = Cell.Empty := by
  simp only [availableMoves, List.mem_filterMap]
  constructor
  · rintro ⟨⟨n, c⟩, hmem, hf⟩
    by_cases hc : c = Cell.Empty
    · rw [if_pos hc] at hf
      have hn : n = i := by injection hf
      subst hn hc
      rw [List.mk_mem_enum_iff_getElem?] at hmem
      rcases List.getElem?_eq_some.mp hmem with ⟨hlt, hget⟩
      refine ⟨hlt, ?_⟩
      simp [getCell, List.getD_eq_getElem?_getD, List.getElem?_eq_getElem hlt, hget]
    · rw [if_neg hc] at hf
      cases hf
  · rintro ⟨hlt, hget⟩
    refine ⟨(i, Cell.Empty), ?_, by simp⟩
    rw [List.mk_mem_enum_iff_getElem?]
    have : getCell board i = board[i] := by
      simp [getCell, List.getD_eq_getElem?_getD, List.getElem?_eq_getElem hlt]
    rw [List.getElem?_eq_getElem hlt, ← this, hget]

theorem length_place (board : Board) (i : Nat) (p : Player) :
    (place board i p).length = board.length := by
  simp [place]

theorem markOf_ne_empty (p : Player) : markOf p ≠ Cell.Empty := by
  cases p <;> decide

theorem emptyCount_le_length (board : Board) : emptyCount board ≤ board.length := by
  unfold emptyCount
  exact List.countP_le_length _

theorem emptyCount_pos {board : Board} {i : Nat} (hlt : i < board.length)
    (hget : getCell board i = Cell.Empty) : 0 < emptyCount board := by
  rw [emptyCount, List.countP_pos_iff]
  refine ⟨board[i], List.getElem_mem hlt, ?_⟩
  have h : getCell board i = board[i] := by
    simp [getCell, List.getD_eq_getElem?_getD, List.getElem?_eq_getElem hlt]
  simp [← h, hget]

theorem emptyCount_place {board : Board} {i : Nat} {p : Player}
    (hlt : i < board.length) (hget : getCell board i = Cell.Empty) :
    emptyCount (place board i p) + 1 = emptyCount board := by
  have hcell : board[i] = Cell.Empty := by
    have h : getCell board i = board[i] := by
      simp [getCell, List.getD_eq_getElem?_getD, List.getElem?_eq_getElem hlt]
    rw [← h, hget]
  have hpos := emptyCount_pos hlt hget
  have h1 : decide (Cell.Empty = Cell.Empty) = true := by decide
  have h2 : decide (markOf p = Cell.Empty) = false := by cases p <;> decide
  show emptyCount (board.set i (markOf p)) + 1 = emptyCount board
  unfold emptyCount at hpos ⊢
  rw [List.countP_set _ _ _ _ hlt, hcell]
  simp only [h1, h2]
  simp only [decide_True, if_true, if_false, Bool.false_eq_true, decide_eq_true_eq]
  omega

theorem getCell_eq_getElem {board : Board} {i : Nat} (h : i < board.length) :
    getCell board i = board[i] := by
  simp [getCell, List.getD_eq_getElem?_getD, List.getElem?_eq_getElem h]

/-! ## Classification lemmas -/

theorem boardFull_false_of_inProgress {board : Board}
    (h : classify board = GameState.InProgress) : boardFull board = false := by
  unfold classify at h
  split at h
  · cases h
  · by_cases hb : boardFull board = true
    · rw [if_pos hb] at h; cases h
    · exact Bool.not_eq_true _ ▸ hb

theorem classify_ne_inProgress_of_full {board : Board} (h : boardFull board = true) :
    classify board ≠ GameState.InProgress := by
  unfold classify
  split
  · intro hc; cases hc
  · rw [if_pos h]; intro hc; cases hc

theorem boardFull_of_emptyCount_zero {board : Board} (h : emptyCount board = 0) :
    boardFull board = true := by
  unfold boardFull
  rw [Bool.not_eq_true']
  rw [emptyCount, List.countP_eq_zero] at h
  rw [List.any_eq_false]
  intro c hc
  exact h c hc

theorem availableMoves_ne_nil {board : Board}
    (h : classify board = GameState.InProgress) : availableMoves board ≠ [] := by
  have hfull := boardFull_false_of_inProgress h
  unfold boardFull at hfull
  rw [Bool.not_eq_false'] at hfull
  rcases List.any_eq_true.mp hfull with ⟨c, hc, hce⟩
  rcases List.mem_iff_getElem.mp hc with ⟨i, hlt, hget⟩
  apply List.ne_nil_of_mem (a := i)
  rw [mem_availableMoves]
  refine ⟨hlt, ?_⟩
  rw [getCell_eq_getElem hlt, hget]
  exact of_decide_eq_true hce

/-! ## Unfolding lemmas for the two searches -/

theorem minimax_win {root : Player} {fuel : Nat} {board : Board} {player w : Player}
    (h : classify board = GameState.Win w) :
    minimax root fuel board player = if w = root then 10 else -10 := by
  cases fuel <;> simp [minimax, h]

theorem minimax_tie {root : Player} {fuel : Nat} {board : Board} {player : Player}
    (h : classify board = GameState.Tie) : minimax root fuel board player = 0 := by
  cases fuel <;> simp [minimax, h]

theorem minimax_zero_inProgress {root : Player} {board : Board} {player : Player}
    (h : classify board = GameState.InProgress) : minimax root 0 board player = 0 := by
  simp [minimax, h]

theorem minimax_inProgress {root : Player} {fuel : Nat} {board : Board} {player : Player}
    (h : classify board = GameState.InProgress) :
    minimax root (fuel + 1) board player =
      if (availableMoves board).isEmpty then 0
      else if player = root then
        ((availableMoves board).map
          (fun i => minimax root fuel (place board i player) player.opponent)).foldl
          max (-maxI32)
      else
        ((availableMoves board).map
          (fun i => minimax root fuel (place board i player) player.opponent)).foldl
          min maxI32 := by
  simp [minimax, h]

theorem mwp_win {root : Player} {fuel : Nat} {board : Board} {player w : Player}
    {alpha beta : Int} (h : classify board = GameState.Win w) :
    minimax_with_pruning root fuel board player alpha beta =
      if w = root then 10 else -10 := by
  cases fuel <;> simp [minimax_with_pruning, h]

theorem mwp_tie {root : Player} {fuel : Nat} {board : Board} {player : Player}
    {alpha beta : Int} (h : classify board = GameState.Tie) :
    minimax_with_pruning root fuel board player alpha beta = 0 := by
  cases fuel <;> simp [minimax_with_pruning, h]

theorem mwp_zero_inProgress {root : Player} {board : Board} {player : Player}
    {alpha beta : Int} (h : classify board = GameState.InProgress) :
    minimax_with_pruning root 0 board player alpha beta = 0 := by
  simp [minimax_with_pruning, h]

theorem mwp_inProgress {root : Player} {fuel : Nat} {board : Board} {player : Player}
    {alpha beta : Int} (h : classify board = GameState.InProgress) :
    minimax_with_pruning root (fuel + 1) board player alpha beta =
      if (availableMoves board).isEmpty then 0
      else if player = root then
        abMaxLoop (minimax_with_pruning root fuel) board player (availableMoves board)
          alpha beta (-maxI32)
      else
        abMinLoop (minimax_with_pruning root fuel) board player (availableMoves board)
          alpha beta maxI32 := by
  simp [minimax_with_pruning, h]

/-! ## Range, fuel irrelevance and root duality of plain minimax -/

theorem neg_maxI32_le_ten : -maxI32 ≤ (10 : Int) := by unfold maxI32; decide

theorem ten_le_maxI32 : (-10 : Int) ≤ maxI32 := by unfold maxI32; decide

theorem minimax_range (root : Player) (fuel : Nat) :
    ∀ (board : Board) (player : Player),
      -10 ≤ minimax root fuel board player ∧ minimax root fuel board player ≤ 10 := by
  induction fuel with
  | zero =>
    intro board player
    cases hc : classify board
    · rw [minimax_win hc]; split <;> omega
    · rw [minimax_tie hc]; omega
    · rw [minimax_zero_inProgress hc]; omega
  | succ n ih =>
    intro board player
    cases hc : classify board
    · rw [minimax_win hc]; split <;> omega
    · rw [minimax_tie hc]; omega
    · rw [minimax_inProgress hc]
      cases hm : availableMoves board with
      | nil => simp
      | cons a as =>
        simp only [List.isEmpty_cons, if_false, Bool.false_eq_true]
        have hmem : minimax root n (place board a player) player.opponent ∈
            ((a :: as).map (fun i => minimax root n (place board i player) player.opponent)) := by
          simp
        split
        · constructor
          · exact le_trans (ih (place board a player) player.opponent).1
              (mem_le_foldl_max _ _ _ hmem)
          · refine foldl_max_le _ _ _ neg_maxI32_le_ten ?_
            intro x hx
            rcases List.mem_map.mp hx with ⟨i, _, rfl⟩
            exact (ih _ _).2
        · constructor
          · refine foldl_min_ge _ _ _ ten_le_maxI32 ?_
            intro x hx
            rcases List.mem_map.mp hx with ⟨i, _, rfl⟩
            exact (ih _ _).1
          · exact le_trans (foldl_min_le_mem _ _ _ hmem)
              (ih (place board a player) player.opponent).2

theorem minimax_fuel_succ (root : Player) (fuel : Nat) :
    ∀ (board : Board) (player : Player), emptyCount board ≤ fuel →
      minimax root (fuel + 1) board player = minimax root fuel board player := by
  induction fuel with
  | zero =>
    intro board player h
    cases hc : classify board
    · simp [minimax_win hc]
    · simp [minimax_tie hc]
    · exact absurd hc
        (classify_ne_inProgress_of_full (boardFull_of_emptyCount_zero (Nat.le_zero.mp h)))
  | succ n ih =>
    intro board player h
    cases hc : classify board
    · simp [minimax_win hc]
    · simp [minimax_tie hc]
    · rw [minimax_inProgress hc, minimax_inProgress hc]
      have hmap : (availableMoves board).map
            (fun i => minimax root (n + 1) (place board i player) player.opponent) =
          (availableMoves board).map
            (fun i => minimax root n (place board i player) player.opponent) := by
        apply List.map_congr_left
        intro i hi
        rcases mem_availableMoves.mp hi with ⟨hlt, hget⟩
        apply ih
        have := emptyCount_place (p := player) hlt hget
        omega
      rw [hmap]

theorem minimax_fuel_add (root : Player) (fuel k : Nat) :
    ∀ (board : Board) (player : Player), emptyCount board ≤ fuel →
      minimax root (fuel + k) board player = minimax root fuel board player := by
  induction k with
  | zero => intro board player _; rfl
  | succ n ih =>
    intro board player h
    rw [show fuel + (n + 1) = (fuel + n) + 1 by omega]
    rw [minimax_fuel_succ root (fuel + n) board player (le_trans h (Nat.le_add_right _ _))]
    exact ih board player h

theorem minimax_fuel_eq (root : Player) {m n : Nat} {board : Board} {player : Player}
    (hm : emptyCount board ≤ m) (hn : emptyCount board ≤ n) :
    minimax root m board player = minimax root n board player := by
  rcases Nat.le_total m n with h | h
  · rcases Nat.exists_eq_add_of_le h with ⟨k, rfl⟩
    rw [minimax_fuel_add root m k board player hm]
  · rcases Nat.exists_eq_add_of_le h with ⟨k, rfl⟩
    rw [minimax_fuel_add root n k board player hn]

theorem foldl_max_neg (l : List Int) (a : Int) :
    (l.map (fun x => -x)).foldl max (-a) = -(l.foldl min a) := by
  induction l generalizing a with
  | nil => rfl
  | cons x xs ih =>
    simp only [List.map_cons, List.foldl_cons]
    rw [max_neg_neg]
    exact ih _

theorem minimax_opponent (root : Player) (fuel : Nat) :
    ∀ (board : Board) (player : Player),
      minimax root.opponent fuel board player = -(minimax root fuel board player) := by
  induction fuel with
  | zero =>
    intro board player
    cases hc : classify board
    case Win w =>
      rw [minimax_win hc, minimax_win hc]
      cases root <;> cases w <;> decide
    case Tie => rw [minimax_tie hc, minimax_tie hc]; rfl
    case InProgress => rw [minimax_zero_inProgress hc, minimax_zero_inProgress hc]; rfl
  | succ n ih =>
    intro board player
    cases hc : classify board
    case Win w =>
      rw [minimax_win hc, minimax_win hc]
      cases root <;> cases w <;> decide
    case Tie => rw [minimax_tie hc, minimax_tie hc]; rfl
    case InProgress =>
      rw [minimax_inProgress hc, minimax_inProgress hc]
      cases hm : (availableMoves board).isEmpty
      · simp only [Bool.false_eq_true, if_false]
        have hmap : (availableMoves board).map
              (fun i => minimax root.opponent n (place board i player) player.opponent) =
            ((availableMoves board).map
              (fun i => minimax root n (place board i player) player.opponent)).map
              (fun x => -x) := by
          rw [List.map_map]
          apply List.map_congr_left
          intro i _
          exact ih (place board i player) player.opponent
        rw [hmap]
        rcases Player.eq_or_opponent root player with hp | hp
        · rw [if_neg (by rw [hp]; exact fun hh => Player.opponent_ne root hh.symm),
            if_pos hp]
          rw [show (maxI32 : Int) = -(-maxI32) by rw [neg_neg]]
          exact foldl_min_neg _ _
        · rw [if_pos hp, if_neg (by rw [hp]; exact fun hh => Player.opponent_ne root hh)]
          rw [show (-maxI32 : Int) = -(maxI32) by rfl]
          exact foldl_max_neg _ _
      · simp

/-! ## Fail-soft alpha-beta is equivalent to plain minimax (Knuth-Moore) -/

theorem kmspec_of_eq {v r alpha beta : Int} (h : r = v) : KMspec v r alpha beta := by
  subst h
  exact ⟨fun h1 => ⟨le_refl _, h1⟩, fun _ _ => rfl, fun h1 => ⟨h1, le_refl _⟩⟩

theorem abMaxLoop_spec (f : Board → Player → Int → Int → Int) (g : Nat → Int)
    (board : Board) (player : Player) (alpha0 beta : Int) (ha0 : -maxI32 ≤ alpha0) :
    ∀ (ms : List Nat) (m a : Int),
      (∀ i ∈ ms, ∀ a2 : Int, -maxI32 ≤ a2 → a2 < beta →
        KMspec (g i) (f (place board i player) player.opponent a2 beta) a2 beta) →
      a = max alpha0 m → a < beta →
      KMspec ((ms.map g).foldl max m) (abMaxLoop f board player ms a beta m)
        alpha0 beta := by
  intro ms
  induction ms with
  | nil =>
    intro m a hf ha hab
    exact kmspec_of_eq rfl
  | cons i rest ih =>
    intro m a hf ha hab
    simp only [abMaxLoop, List.map_cons, List.foldl_cons]
    set ri := f (place board i player) player.opponent a beta with hri_def
    set vi := g i with hvi_def
    have hS : KMspec vi ri a beta := by
      rw [hri_def, hvi_def]
      exact hf i (List.mem_cons_self _ _) a
        (by rw [ha]; exact le_trans ha0 (le_max_left _ _)) hab
    have halb : alpha0 < beta :=
      lt_of_le_of_lt (by rw [ha]; exact le_max_left _ _ : alpha0 ≤ a) hab
    by_cases hbr : beta ≤ max a ri
    · rw [if_pos hbr]
      have hri : beta ≤ ri := by
        rcases le_max_iff.mp hbr with h | h
        · exact absurd h (not_le.mpr hab)
        · exact h
      have hvi : beta ≤ vi := by
        by_cases h1 : vi ≤ a
        · rcases hS.1 h1 with ⟨_, h3⟩
          exact absurd (le_trans hri h3) (not_le.mpr hab)
        · by_cases h2 : vi < beta
          · have h4 := hS.2.1 (not_le.mp h1) h2
            rw [h4] at hri
            exact absurd h2 (not_lt.mpr hri)
          · exact not_lt.mp h2
      rcases hS.2.2 hvi with ⟨hr1, hr2⟩
      have hmV : m ≤ (rest.map g).foldl max (max m vi) :=
        le_trans (le_max_left m vi) (le_foldl_max _ _)
      have hV : beta ≤ (rest.map g).foldl max (max m vi) :=
        le_trans hvi (le_trans (le_max_right m vi) (le_foldl_max _ _))
      refine ⟨fun h => absurd (lt_of_le_of_lt h halb) (not_lt.mpr hV), ?_, ?_⟩
      · intro _ h2
        exact absurd (lt_of_lt_of_le h2 hV) (lt_irrefl _)
      · intro _
        refine ⟨le_trans hr1 (le_max_right _ _), max_le hmV ?_⟩
        exact le_trans hr2 (le_trans (le_max_right m vi) (le_foldl_max _ _))
    · rw [if_neg hbr]
      have har : max a ri < beta := not_le.mp hbr
      have hfr : vi ≤ ri ∧ ri ≤ max vi a := by
        by_cases h1 : vi ≤ a
        · exact ⟨(hS.1 h1).1, le_trans (hS.1 h1).2 (le_max_right _ _)⟩
        · by_cases h2 : vi < beta
          · rw [hS.2.1 (not_le.mp h1) h2]
            exact ⟨le_refl _, le_max_left _ _⟩
          · have h3 := hS.2.2 (not_lt.mp h2)
            exact absurd (lt_of_le_of_lt (le_trans h3.1 (le_max_right a ri)) har)
              (lt_irrefl _)
      have hIH := ih (max m ri) (max a ri)
        (fun j hj => hf j (List.mem_cons_of_mem _ hj))
        (by rw [ha, max_assoc]) har
      set V := (rest.map g).foldl max (max m vi) with hV_def
      set V2 := (rest.map g).foldl max (max m ri) with hV2_def
      set R := abMaxLoop f board player rest (max a ri) beta (max m ri) with hR_def
      have hVV : V ≤ V2 := foldl_max_mono_init _ _ _ (max_le_max (le_refl m) hfr.1)
      have hV2V : V2 ≤ max V a := by
        refine foldl_max_le_max _ _ _ _ ?_
        have h1 : ri ≤ max (max m vi) a :=
          le_trans hfr.2 (max_le (le_trans (le_max_right m vi) (le_max_left _ _))
            (le_max_right _ _))
        exact max_le (le_trans (le_max_left m vi) (le_max_left _ _)) h1
      have hmV : m ≤ V := le_trans (le_max_left m vi) (le_foldl_max _ _)
      refine ⟨?_, ?_, ?_⟩
      · intro hVa
        have hma : a = alpha0 := by rw [ha]; exact max_eq_left (le_trans hmV hVa)
        have hV2a : V2 ≤ alpha0 := by
          refine le_trans hV2V ?_
          rw [hma]
          exact max_le hVa (le_refl _)
        rcases hIH.1 hV2a with ⟨h1, h2⟩
        exact ⟨le_trans hVV h1, h2⟩
      · intro h1 h2
        have haV : a ≤ V := by rw [ha]; exact max_le (le_of_lt h1) hmV
        have hVeq : V2 = V := le_antisymm (le_trans hV2V (max_le (le_refl V) haV)) hVV
        have hR2 : R = V2 := hIH.2.1 (by rw [hVeq]; exact h1) (by rw [hVeq]; exact h2)
        rw [hR2, hVeq]
      · intro h1
        have h2 : beta ≤ V2 := le_trans h1 hVV
        rcases hIH.2.2 h2 with ⟨hr1, hr2⟩
        refine ⟨hr1, le_trans hr2 ?_⟩
        exact le_trans hV2V (max_le (le_refl _) (le_trans (le_of_lt hab) h1))

theorem abMinLoop_spec (f : Board → Player → Int → Int → Int) (g : Nat → Int)
    (board : Board) (player : Player) (alpha beta0 : Int) (hb0 : beta0 ≤ maxI32) :
    ∀ (ms : List Nat) (m b : Int),
      (∀ i ∈ ms, ∀ b2 : Int, b2 ≤ maxI32 → alpha < b2 →
        KMspec (g i) (f (place board i player) player.opponent alpha b2) alpha b2) →
      b = min beta0 m → alpha < b →
      KMspec ((ms.map g).foldl min m) (abMinLoop f board player ms alpha b m)
        alpha beta0 := by
  intro ms
  induction ms with
  | nil =>
    intro m b hf hb hab
    exact kmspec_of_eq rfl
  | cons i rest ih =>
    intro m b hf hb hab
    simp only [abMinLoop, List.map_cons, List.foldl_cons]
    set ri := f (place board i player) player.opponent alpha b with hri_def
    set vi := g i with hvi_def
    have hS : KMspec vi ri alpha b := by
      rw [hri_def, hvi_def]
      exact hf i (List.mem_cons_self _ _) b
        (by rw [hb]; exact le_trans (min_le_left _ _) hb0) hab
    have halb : alpha < beta0 :=
      lt_of_lt_of_le hab (by rw [hb]; exact min_le_left _ _ : b ≤ beta0)
    by_cases hbr : min b ri ≤ alpha
    · rw [if_pos hbr]
      have hri : ri ≤ alpha := by
        rcases min_le_iff.mp hbr with h | h
        · exact absurd h (not_le.mpr hab)
        · exact h
      have hvi : vi ≤ alpha := by
        by_cases h1 : b ≤ vi
        · rcases hS.2.2 h1 with ⟨h3, _⟩
          exact absurd (le_trans h3 hri) (not_le.mpr hab)
        · by_cases h2 : alpha < vi
          · have h4 := hS.2.1 h2 (not_le.mp h1)
            rw [h4] at hri
            exact absurd h2 (not_lt.mpr hri)
          · exact not_lt.mp h2
      rcases hS.1 hvi with ⟨hr1, hr2⟩
      have hmV : (rest.map g).foldl min (min m vi) ≤ m :=
        le_trans (foldl_min_le_init _ _) (min_le_left m vi)
      have hV : (rest.map g).foldl min (min m vi) ≤ alpha :=
        le_trans (le_trans (foldl_min_le_init _ _) (min_le_right m vi)) hvi
      refine ⟨?_, ?_, ?_⟩
      · intro _
        refine ⟨le_min hmV ?_, le_trans (min_le_right m ri) hri⟩
        exact le_trans (le_trans (foldl_min_le_init _ _) (min_le_right m vi)) hr1
      · intro h1 _
        exact absurd (lt_of_lt_of_le h1 hV) (lt_irrefl _)
      · intro h1
        exact absurd (lt_of_lt_of_le halb (le_trans h1 hV)) (lt_irrefl _)
    · rw [if_neg hbr]
      have har : alpha < min b ri := not_le.mp hbr
      have hfr : ri ≤ vi ∧ min vi b ≤ ri := by
        by_cases h1 : b ≤ vi
        · exact ⟨(hS.2.2 h1).2, le_trans (min_le_right _ _) (hS.2.2 h1).1⟩
        · by_cases h2 : alpha < vi
          · rw [hS.2.1 h2 (not_le.mp h1)]
            exact ⟨le_refl _, min_le_left _ _⟩
          · have h3 := hS.1 (not_lt.mp h2)
            exact absurd (lt_of_lt_of_le har (le_trans (min_le_right b ri) h3.2))
              (lt_irrefl _)
      have hIH := ih (min m ri) (min b ri)
        (fun j hj => hf j (List.mem_cons_of_mem _ hj))
        (by rw [hb, min_assoc]) har
      set V := (rest.map g).foldl min (min m vi) with hV_def
      set V2 := (rest.map g).foldl min (min m ri) with hV2_def
      set R := abMinLoop f board player rest alpha (min b ri) (min m ri) with hR_def
      have hVV : V2 ≤ V := foldl_min_mono_init _ _ _ (min_le_min (le_refl m) hfr.1)
      have hV2V : min V b ≤ V2 := by
        refine min_foldl_min_le _ _ _ _ ?_
        have h1 : min (min m vi) b ≤ ri :=
          le_trans (le_min (le_trans (min_le_left _ _) (min_le_right m vi))
            (min_le_right _ _)) hfr.2
        exact le_min (le_trans (min_le_left _ _) (min_le_left m vi)) h1
      have hmV : V ≤ m := le_trans (foldl_min_le_init _ _) (min_le_left m vi)
      refine ⟨?_, ?_, ?_⟩
      · intro hVa
        have h0 : V2 ≤ alpha := le_trans hVV hVa
        rcases hIH.1 h0 with ⟨h1, h2⟩
        refine ⟨?_, h2⟩
        have hVb : min V b = V := min_eq_left (le_trans hVa (le_of_lt hab))
        rw [← hVb]
        exact le_trans hV2V h1
      · intro h1 h2
        have hbV : V ≤ b := by rw [hb]; exact le_min (le_of_lt h2) hmV
        have hVeq : V2 = V :=
          le_antisymm hVV (le_trans (le_of_eq (min_eq_left hbV).symm) hV2V)
        have hR2 : R = V2 := hIH.2.1 (by rw [hVeq]; exact h1) (by rw [hVeq]; exact h2)
        rw [hR2, hVeq]
      · intro h1
        have hmb : b = beta0 := by rw [hb]; exact min_eq_left (le_trans h1 hmV)
        have h0 : beta0 ≤ V2 := by
          refine le_trans ?_ hV2V
          rw [hmb]
          exact le_min h1 (le_refl _)
        rcases hIH.2.2 h0 with ⟨hr1, hr2⟩
        exact ⟨hr1, le_trans hr2 hVV⟩

theorem km (root : Player) (fuel : Nat) :
    ∀ (board : Board) (player : Player) (alpha beta : Int),
      emptyCount board ≤ fuel → -maxI32 ≤ alpha → alpha < beta → beta ≤ maxI32 →
      KMspec (minimax root fuel board player)
        (minimax_with_pruning root fuel board player alpha beta) alpha beta := by
  induction fuel with
  | zero =>
    intro board player alpha beta hf hal hab hbu
    apply kmspec_of_eq
    cases hc : classify board
    · rw [minimax_win hc, mwp_win hc]
    · rw [minimax_tie hc, mwp_tie hc]
    · rw [minimax_zero_inProgress hc, mwp_zero_inProgress hc]
  | succ n ih =>
    intro board player alpha beta hf hal hab hbu
    cases hc : classify board
    case Win w =>
      apply kmspec_of_eq
      rw [minimax_win hc, mwp_win hc]
    case Tie =>
      apply kmspec_of_eq
      rw [minimax_tie hc, mwp_tie hc]
    case InProgress =>
      rw [minimax_inProgress hc, mwp_inProgress hc]
      cases hm : (availableMoves board).isEmpty
      · simp only [Bool.false_eq_true, if_false]
        have hchild : ∀ i ∈ availableMoves board, emptyCount (place board i player) ≤ n := by
          intro i hi
          rcases mem_availableMoves.mp hi with ⟨hlt, hget⟩
          have h1 := emptyCount_place (p := player) hlt hget
          omega
        by_cases hp : player = root
        · rw [if_pos hp, if_pos hp]
          exact abMaxLoop_spec (minimax_with_pruning root n)
            (fun i => minimax root n (place board i player) player.opponent)
            board player alpha beta hal (availableMoves board) (-maxI32) alpha
            (fun i hi a2 h1 h2 => ih (place board i player) player.opponent a2 beta
              (hchild i hi) h1 h2 hbu)
            (max_eq_left hal).symm hab
        · rw [if_neg hp, if_neg hp]
          exact abMinLoop_spec (minimax_with_pruning root n)
            (fun i => minimax root n (place board i player) player.opponent)
            board player alpha beta hbu (availableMoves board) maxI32 beta
            (fun i hi b2 h1 h2 => ih (place board i player) player.opponent alpha b2
              (hchild i hi) hal h2 h1)
            (min_eq_left hbu).symm hab
      · simp only [if_true]
        exact kmspec_of_eq rfl

theorem mwp_full_window (root : Player) {fuel : Nat} {board : Board} {player : Player}
    (h : emptyCount board ≤ fuel) :
    minimax_with_pruning root fuel board player (-maxI32) maxI32 =
      minimax root fuel board player := by
  have hk := km root fuel board player (-maxI32) maxI32 h (le_refl _)
    (by unfold maxI32; decide) (le_refl _)
  rcases minimax_range root fuel board player with ⟨h1, h2⟩
  exact hk.2.1 (lt_of_lt_of_le (by unfold maxI32; decide) h1)
    (lt_of_le_of_lt h2 (by unfold maxI32; decide))

/-! ## The move-selection loop of get_best_move -/

theorem score_eq (e : GameEngine) (h9 : e.board.length = 9) (i : Nat) :
    minimax_with_pruning e.current_player 9 (place e.board i e.current_player)
      e.current_player.opponent (-maxI32) maxI32 = moveScore e i := by
  apply mwp_full_window
  calc emptyCount (place e.board i e.current_player)
      ≤ (place e.board i e.current_player).length := emptyCount_le_length _
    _ = 9 := by rw [length_place, h9]

theorem moveScore_range (e : GameEngine) (i : Nat) :
    -10 ≤ moveScore e i ∧ moveScore e i ≤ 10 :=
  minimax_range _ _ _ _

theorem bestLoop_eq_unpruned (e : GameEngine) (h9 : e.board.length = 9) :
    ∀ (ms : List Nat) (bs : Int) (best : Option Nat),
      bestLoop e ms bs best = bestLoopUnpruned e ms bs best := by
  intro ms
  induction ms with
  | nil => intro bs best; rfl
  | cons i rest ih =>
    intro bs best
    simp only [bestLoop, bestLoopUnpruned, score_eq e h9 i]
    by_cases hc : getCell e.board i = Cell.Empty
    · rw [if_pos hc, if_pos hc]
      by_cases hs : bs < moveScore e i
      · rw [if_pos hs, if_pos hs]; exact ih _ _
      · rw [if_neg hs, if_neg hs]; exact ih _ _
    · rw [if_neg hc, if_neg hc]; exact ih _ _

theorem bestLoopUnpruned_no_improve (e : GameEngine) :
    ∀ (ms : List Nat) (bs : Int) (best : Option Nat),
      (∀ i ∈ ms, getCell e.board i = Cell.Empty → moveScore e i ≤ bs) →
      bestLoopUnpruned e ms bs best = best := by
  intro ms
  induction ms with
  | nil => intro bs best _; rfl
  | cons i rest ih =>
    intro bs best h
    simp only [bestLoopUnpruned]
    by_cases hc : getCell e.board i = Cell.Empty
    · rw [if_pos hc, if_neg (not_lt.mpr (h i (List.mem_cons_self _ _) hc))]
      exact ih _ _ (fun j hj => h j (List.mem_cons_of_mem _ hj))
    · rw [if_neg hc]
      exact ih _ _ (fun j hj => h j (List.mem_cons_of_mem _ hj))

theorem bestLoopUnpruned_finds_best (e : GameEngine) :
    ∀ (ms : List Nat) (bs : Int) (best : Option Nat) (j : Nat),
      List.Pairwise (· < ·) ms → j ∈ ms → getCell e.board j = Cell.Empty →
      bs < moveScore e j →
      (∀ i ∈ ms, getCell e.board i = Cell.Empty → moveScore e i ≤ moveScore e j) →
      (∀ i ∈ ms, i < j → getCell e.board i = Cell.Empty →
        moveScore e i < moveScore e j) →
      bestLoopUnpruned e ms bs best = some j := by
  intro ms
  induction ms with
  | nil => intro bs best j _ hj; cases hj
  | cons i rest ih =>
    intro bs best j hpw hj hje hbs hmax hfirst
    simp only [bestLoopUnpruned]
    rcases List.mem_cons.mp hj with hji | hjr
    · subst hji
      rw [if_pos hje, if_pos hbs]
      exact bestLoopUnpruned_no_improve e rest _ _
        (fun k hk hke => hmax k (List.mem_cons_of_mem _ hk) hke)
    · have hij : i < j := (List.pairwise_cons.mp hpw).1 j hjr
      have htl := (List.pairwise_cons.mp hpw).2
      by_cases hc : getCell e.board i = Cell.Empty
      · rw [if_pos hc]
        have hlt : moveScore e i < moveScore e j :=
          hfirst i (List.mem_cons_self _ _) hij hc
        by_cases hs : bs < moveScore e i
        · rw [if_pos hs]
          exact ih _ _ _ htl hjr hje hlt
            (fun k hk hke => hmax k (List.mem_cons_of_mem _ hk) hke)
            (fun k hk h1 h2 => hfirst k (List.mem_cons_of_mem _ hk) h1 h2)
        · rw [if_neg hs]
          exact ih _ _ _ htl hjr hje hbs
            (fun k hk hke => hmax k (List.mem_cons_of_mem _ hk) hke)
            (fun k hk h1 h2 => hfirst k (List.mem_cons_of_mem _ hk) h1 h2)
      · rw [if_neg hc]
        exact ih _ _ _ htl hjr hje hbs
          (fun k hk hke => hmax k (List.mem_cons_of_mem _ hk) hke)
          (fun k hk h1 h2 => hfirst k (List.mem_cons_of_mem _ hk) h1 h2)

theorem bestLoopUnpruned_max (e : GameEngine) :
    ∀ (ms : List Nat) (bs : Int) (best : Option Nat),
      (∀ j0, best = some j0 → bs = moveScore e j0) →
      ∀ j, bestLoopUnpruned e ms bs best = some j →
        bs ≤ moveScore e j ∧
          ∀ i ∈ ms, getCell e.board i = Cell.Empty → moveScore e i ≤ moveScore e j := by
  intro ms
  induction ms with
  | nil =>
    intro bs best hinv j h
    have hb := hinv j h
    exact ⟨le_of_eq hb, fun i hi => absurd hi (List.not_mem_nil _)⟩
  | cons i rest ih =>
    intro bs best hinv j h
    simp only [bestLoopUnpruned] at h
    by_cases hc : getCell e.board i = Cell.Empty
    · rw [if_pos hc] at h
      by_cases hs : bs < moveScore e i
      · rw [if_pos hs] at h
        have hinv2 : ∀ j0, (some i : Option Nat) = some j0 → moveScore e i = moveScore e j0 := by
          intro j0 hj0
          have : i = j0 := by injection hj0
          rw [this]
        rcases ih _ _ hinv2 j h with ⟨h1, h2⟩
        refine ⟨le_trans (le_of_lt hs) h1, ?_⟩
        intro k hk hke
        rcases List.mem_cons.mp hk with hki | hkr
        · subst hki; exact h1
        · exact h2 k hkr hke
      · rw [if_neg hs] at h
        rcases ih _ _ hinv j h with ⟨h1, h2⟩
        refine ⟨h1, ?_⟩
        intro k hk hke
        rcases List.mem_cons.mp hk with hki | hkr
        · subst hki; exact le_trans (not_lt.mp hs) h1
        · exact h2 k hkr hke
    · rw [if_neg hc] at h
      rcases ih _ _ hinv j h with ⟨h1, h2⟩
      refine ⟨h1, ?_⟩
      intro k hk hke
      rcases List.mem_cons.mp hk with hki | hkr
      · subst hki; exact absurd hke hc
      · exact h2 k hkr hke

theorem bestLoop_some_mem (e : GameEngine) :
    ∀ (ms : List Nat) (bs : Int) (best : Option Nat) (j : Nat),
      bestLoop e ms bs best = some j →
      best = some j ∨ (j ∈ ms ∧ getCell e.board j = Cell.Empty) := by
  intro ms
  induction ms with
  | nil => intro bs best j h; exact Or.inl h
  | cons i rest ih =>
    intro bs best j h
    simp only [bestLoop] at h
    by_cases hc : getCell e.board i = Cell.Empty
    · rw [if_pos hc] at h
      by_cases hs : bs < minimax_with_pruning e.current_player 9
          (place e.board i e.current_player) e.current_player.opponent (-maxI32) maxI32
      · rw [if_pos hs] at h
        rcases ih _ _ _ h with h1 | ⟨h1, h2⟩
        · have hij : i = j := by injection h1
          subst hij
          exact Or.inr ⟨List.mem_cons_self _ _, hc⟩
        · exact Or.inr ⟨List.mem_cons_of_mem _ h1, h2⟩
      · rw [if_neg hs] at h
        rcases ih _ _ _ h with h1 | ⟨h1, h2⟩
        · exact Or.inl h1
        · exact Or.inr ⟨List.mem_cons_of_mem _ h1, h2⟩
    · rw [if_neg hc] at h
      rcases ih _ _ _ h with h1 | ⟨h1, h2⟩
      · exact Or.inl h1
      · exact Or.inr ⟨List.mem_cons_of_mem _ h1, h2⟩

theorem exists_first_argmax (g : Nat → Int) :
    ∀ (l : List Nat), l ≠ [] → List.Pairwise (· < ·) l →
      ∃ j ∈ l, (∀ i ∈ l, g i ≤ g j) ∧ (∀ i ∈ l, i < j → g i < g j) := by
  intro l
  induction l with
  | nil => intro h _; exact absurd rfl h
  | cons x rest ih =>
    intro _ hpw
    have hhd := (List.pairwise_cons.mp hpw).1
    have htl := (List.pairwise_cons.mp hpw).2
    by_cases hr : rest = []
    · subst hr
      refine ⟨x, List.mem_cons_self _ _, ?_, ?_⟩
      · intro i hi
        rcases List.mem_cons.mp hi with h1 | h1
        · subst h1; exact le_refl _
        · cases h1
      · intro i hi hlt
        rcases List.mem_cons.mp hi with h1 | h1
        · subst h1; exact absurd hlt (lt_irrefl _)
        · cases h1
    · rcases ih hr htl with ⟨j, hj, hmax, hfirst⟩
      by_cases hgx : g j ≤ g x
      · refine ⟨x, List.mem_cons_self _ _, ?_, ?_⟩
        · intro i hi
          rcases List.mem_cons.mp hi with h1 | h1
          · subst h1; exact le_refl _
          · exact le_trans (hmax i h1) hgx
        · intro i hi hlt
          rcases List.mem_cons.mp hi with h1 | h1
          · subst h1; exact absurd hlt (lt_irrefl _)
          · exact absurd hlt (not_lt.mpr (le_of_lt (hhd i h1)))
      · have hxj : g x < g j := not_le.mp hgx
        refine ⟨j, List.mem_cons_of_mem _ hj, ?_, ?_⟩
        · intro i hi
          rcases List.mem_cons.mp hi with h1 | h1
          · subst h1; exact le_of_lt hxj
          · exact hmax i h1
        · intro i hi hlt
          rcases List.mem_cons.mp hi with h1 | h1
          · subst h1; exact hxj
          · exact hfirst i h1 hlt

theorem get_best_move_eq_loop {e : GameEngine} (hai : e.ai_enabled = true)
    (hip : check_state e = GameState.InProgress) :
    get_best_move e = bestLoop e (List.range 9) (-maxI32) none := by
  simp [get_best_move, is_over, hai, hip]

theorem get_best_move_none_of {e : GameEngine}
    (h : e.ai_enabled = false ∨ check_state e ≠ GameState.InProgress) :
    get_best_move e = none := by
  rcases h with h | h
  · simp [get_best_move, h]
  · have hover : is_over e = true := by
      unfold is_over
      cases hc : check_state e
      · rfl
      · rfl
      · exact absurd hc h
    simp [get_best_move, hover]

theorem neg_maxI32_le_neg_ten : -maxI32 ≤ (-10 : Int) := by unfold maxI32; decide

theorem get_best_move_spec {e : GameEngine} (h9 : e.board.length = 9)
    (hai : e.ai_enabled = true) (hip : check_state e = GameState.InProgress) :
    ∃ j, get_best_move e = some j ∧ j < 9 ∧ getCell e.board j = Cell.Empty ∧
      (∀ i, i < 9 → getCell e.board i = Cell.Empty → moveScore e i ≤ moveScore e j) ∧
      (∀ i, i < j → getCell e.board i = Cell.Empty → moveScore e i < moveScore e j) := by
  have hip2 : classify e.board = GameState.InProgress := hip
  have hne : availableMoves e.board ≠ [] := availableMoves_ne_nil hip2
  have hEne : (List.range 9).filter
      (fun i => decide (getCell e.board i = Cell.Empty)) ≠ [] := by
    rcases List.exists_mem_of_ne_nil _ hne with ⟨i, hi⟩
    rcases mem_availableMoves.mp hi with ⟨hlt, hget⟩
    apply List.ne_nil_of_mem (a := i)
    rw [List.mem_filter, List.mem_range]
    exact ⟨by omega, by simp [hget]⟩
  have hpw : List.Pairwise (· < ·)
      ((List.range 9).filter (fun i => decide (getCell e.board i = Cell.Empty))) :=
    List.Pairwise.filter _ (List.pairwise_lt_range 9)
  rcases exists_first_argmax (moveScore e) _ hEne hpw with ⟨j, hjE, hmax, hfirst⟩
  rw [List.mem_filter, List.mem_range] at hjE
  obtain ⟨hj9, hje⟩ := hjE
  rw [decide_eq_true_eq] at hje
  have hmemE : ∀ i, i < 9 → getCell e.board i = Cell.Empty →
      i ∈ (List.range 9).filter (fun i => decide (getCell e.board i = Cell.Empty)) := by
    intro i hi hie
    rw [List.mem_filter, List.mem_range]
    exact ⟨hi, by simp [hie]⟩
  refine ⟨j, ?_, hj9, hje, ?_, ?_⟩
  · rw [get_best_move_eq_loop hai hip, bestLoop_eq_unpruned e h9]
    apply bestLoopUnpruned_finds_best e _ _ _ _ (List.pairwise_lt_range 9)
      (List.mem_range.mpr hj9) hje
      (lt_of_lt_of_le (show -maxI32 < (-10 : Int) by unfold maxI32; decide)
        (moveScore_range e j).1)
    · intro i hi hie
      exact hmax i (hmemE i (List.mem_range.mp hi) hie)
    · intro i hi hij hie
      exact hfirst i (hmemE i (List.mem_range.mp hi) hie) hij
  · intro i hi hie
    exact hmax i (hmemE i hi hie)
  · intro i hij hie
    exact hfirst i (hmemE i (lt_trans hij hj9) hie) hij

theorem get_best_move_score {e : GameEngine} (h9 : e.board.length = 9)
    (hai : e.ai_enabled = true) (hip : check_state e = GameState.InProgress)
    {j : Nat} (hj : get_best_move e = some j) :
    moveScore e j = minimax e.current_player 9 e.board e.current_player := by
  have hip2 : classify e.board = GameState.InProgress := hip
  have hloop : bestLoopUnpruned e (List.range 9) (-maxI32) none = some j := by
    rw [← bestLoop_eq_unpruned e h9, ← get_best_move_eq_loop hai hip]
    exact hj
  have hmem := bestLoop_some_mem e (List.range 9) (-maxI32) none j
    (by rw [← get_best_move_eq_loop hai hip]; exact hj)
  rcases hmem with h1 | ⟨h1, h2⟩
  · cases h1
  have hj9 : j < 9 := List.mem_range.mp h1
  have hjav : j ∈ availableMoves e.board := mem_availableMoves.mpr ⟨by omega, h2⟩
  have hmax := bestLoopUnpruned_max e (List.range 9) (-maxI32) none
    (by intro j0 h0; cases h0) j hloop
  have hec : emptyCount e.board ≤ 9 := le_trans (emptyCount_le_length _) (le_of_eq h9)
  rw [show (9 : Nat) = 8 + 1 by rfl, minimax_inProgress hip2]
  rw [if_neg (fun hcon => (availableMoves_ne_nil hip2) (List.isEmpty_iff.mp hcon))]
  rw [if_pos rfl]
  have hmap : (availableMoves e.board).map
      (fun i => minimax e.current_player 8
        (place e.board i e.current_player) e.current_player.opponent) =
      (availableMoves e.board).map (moveScore e) := by
    apply List.map_congr_left
    intro i hi
    rcases mem_availableMoves.mp hi with ⟨hlt, hget⟩
    have hcp := emptyCount_place (p := e.current_player) hlt hget
    exact minimax_fuel_eq _ (by omega) (by omega)
  rw [hmap]
  apply le_antisymm
  · exact mem_le_foldl_max _ _ _ (List.mem_map_of_mem _ hjav)
  · refine foldl_max_le _ _ _
      (le_trans neg_maxI32_le_neg_ten (moveScore_range e j).1) ?_
    intro x hx
    rcases List.mem_map.mp hx with ⟨i, hi, rfl⟩
    rcases mem_availableMoves.mp hi with ⟨hlt, hget⟩
    exact hmax.2 i (List.mem_range.mpr (by omega)) hget

/-! ## make_move lemmas -/

theorem make_move_none_parts {e : GameEngine} {i : Nat}
    (h : (make_move e i).1 = none) :
    (make_move e i).2 =
        { board := place e.board i e.current_player
          current_player := e.current_player.opponent
          ai_enabled := e.ai_enabled } ∧
      i < 9 ∧ getCell e.board i = Cell.Empty := by
  unfold make_move at h ⊢
  by_cases h1 : 9 ≤ i
  · rw [if_pos h1] at h; cases h
  rw [if_neg h1] at h ⊢
  by_cases h2 : getCell e.board i ≠ Cell.Empty
  · rw [if_pos h2] at h; cases h
  rw [if_neg h2]
  exact ⟨rfl, by omega, not_not.mp h2⟩

theorem make_move_success {e : GameEngine} {i : Nat} (h9 : i < 9)
    (hemp : getCell e.board i = Cell.Empty) :
    make_move e i =
      (none,
        { board := place e.board i e.current_player
          current_player := e.current_player.opponent
          ai_enabled := e.ai_enabled }) := by
  unfold make_move
  rw [if_neg (by omega), if_neg (fun hcon => hcon hemp)]

theorem runMoves_parity :
    ∀ (ms : List Nat) (e e2 : GameEngine), runMoves e ms = some e2 →
      e2.current_player =
        if ms.length % 2 = 0 then e.current_player else e.current_player.opponent := by
  intro ms
  induction ms with
  | nil =>
    intro e e2 h
    have he : e = e2 := by injection h
    subst he
    simp
  | cons i rest ih =>
    intro e e2 h
    unfold runMoves at h
    rcases hmm : make_move e i with ⟨err, e1⟩
    rw [hmm] at h
    cases err with
    | some msg => cases h
    | none =>
      have hparts := make_move_none_parts (e := e) (i := i) (by rw [hmm])
      rw [hmm] at hparts
      have he1eq : e1 =
          { board := place e.board i e.current_player
            current_player := e.current_player.opponent
            ai_enabled := e.ai_enabled } := hparts.1
      have he1 : e1.current_player = e.current_player.opponent := by rw [he1eq]
      have hrec := ih e1 e2 h
      by_cases hp : rest.length % 2 = 0
      · rw [if_pos hp, he1] at hrec
        rw [hrec, if_neg (by simp; omega)]
      · rw [if_neg hp, he1, Player.opponent_opponent] at hrec
        rw [hrec, if_pos (by simp; omega)]

/-! ## Soundness of the strategy-certificate checkers -/

theorem checkGE_win {root : Player} {fuel : Nat} {board : Board} {player w : Player}
    {v : Int} {s : Strat} (h : classify board = GameState.Win w) :
    checkGE root fuel board player v s =
      decide (v ≤ if w = root then 10 else -10) := by
  cases fuel <;> simp [checkGE, h]

theorem checkGE_tie {root : Player} {fuel : Nat} {board : Board} {player : Player}
    {v : Int} {s : Strat} (h : classify board = GameState.Tie) :
    checkGE root fuel board player v s = decide (v ≤ 0) := by
  cases fuel <;> simp [checkGE, h]

theorem checkGE_zero_inProgress {root : Player} {board : Board} {player : Player}
    {v : Int} {s : Strat} (h : classify board = GameState.InProgress) :
    checkGE root 0 board player v s = decide (v ≤ 0) := by
  simp [checkGE, h]

theorem checkGE_succ_pick {root : Player} {n : Nat} {board : Board} {player : Player}
    {v : Int} {i : Nat} {k : Strat} (h : classify board = GameState.InProgress) :
    checkGE root (n + 1) board player v (Strat.pick i k) =
      (decide (player = root) && decide (i ∈ availableMoves board) &&
        checkGE root n (place board i player) player.opponent v k) := by
  simp [checkGE, h]

theorem checkGE_succ_table {root : Player} {n : Nat} {board : Board} {player : Player}
    {v : Int} {tbl : List (Nat × Strat)} (h : classify board = GameState.InProgress) :
    checkGE root (n + 1) board player v (Strat.table tbl) =
      (decide (player ≠ root) &&
        (availableMoves board).all fun j =>
          match tbl.lookup j with
          | some k => checkGE root n (place board j player) player.opponent v k
          | none => false) := by
  simp [checkGE, h]

theorem checkLE_win {root : Player} {fuel : Nat} {board : Board} {player w : Player}
    {v : Int} {s : Strat} (h : classify board = GameState.Win w) :
    checkLE root fuel board player v s =
      decide ((if w = root then (10 : Int) else -10) ≤ v) := by
  cases fuel <;> simp [checkLE, h]

theorem checkLE_tie {root : Player} {fuel : Nat} {board : Board} {player : Player}
    {v : Int} {s : Strat} (h : classify board = GameState.Tie) :
    checkLE root fuel board player v s = decide ((0 : Int) ≤ v) := by
  cases fuel <;> simp [checkLE, h]

theorem checkLE_zero_inProgress {root : Player} {board : Board} {player : Player}
    {v : Int} {s : Strat} (h : classify board = GameState.InProgress) :
    checkLE root 0 board player v s = decide ((0 : Int) ≤ v) := by
  simp [checkLE, h]

theorem checkLE_succ_pick {root : Player} {n : Nat} {board : Board} {player : Player}
    {v : Int} {i : Nat} {k : Strat} (h : classify board = GameState.InProgress) :
    checkLE root (n + 1) board player v (Strat.pick i k) =
      (decide (player ≠ root) && decide (i ∈ availableMoves board) &&
        checkLE root n (place board i player) player.opponent v k) := by
  simp [checkLE, h]

theorem checkLE_succ_table {root : Player} {n : Nat} {board : Board} {player : Player}
    {v : Int} {tbl : List (Nat × Strat)} (h : classify board = GameState.InProgress) :
    checkLE root (n + 1) board player v (Strat.table tbl) =
      (decide (player = root) &&
        (availableMoves board).all fun j =>
          match tbl.lookup j with
          | some k => checkLE root n (place board j player) player.opponent v k
          | none => false) := by
  simp [checkLE, h]

theorem checkGE_sound (root : Player) (fuel : Nat) :
    ∀ (board : Board) (player : Player) (v : Int) (s : Strat),
      v ≤ maxI32 → checkGE root fuel board player v s = true →
      v ≤ minimax root fuel board player := by
  induction fuel with
  | zero =>
    intro board player v s hv h
    cases hc : classify board
    case Win w =>
      rw [checkGE_win hc] at h
      rw [minimax_win hc]
      exact of_decide_eq_true h
    case Tie =>
      rw [checkGE_tie hc] at h
      rw [minimax_tie hc]
      exact of_decide_eq_true h
    case InProgress =>
      rw [checkGE_zero_inProgress hc] at h
      rw [minimax_zero_inProgress hc]
      exact of_decide_eq_true h
  | succ n ih =>
    intro board player v s hv h
    cases hc : classify board
    case Win w =>
      rw [checkGE_win hc] at h
      rw [minimax_win hc]
      exact of_decide_eq_true h
    case Tie =>
      rw [checkGE_tie hc] at h
      rw [minimax_tie hc]
      exact of_decide_eq_true h
    case InProgress =>
      rw [minimax_inProgress hc,
        if_neg (fun hcon => (availableMoves_ne_nil hc) (List.isEmpty_iff.mp hcon))]
      cases s with
      | pick i k =>
        rw [checkGE_succ_pick hc] at h
        simp only [Bool.and_eq_true, decide_eq_true_eq] at h
        obtain ⟨⟨hp, hi⟩, hk⟩ := h
        rw [if_pos hp]
        exact le_trans (ih _ _ _ _ hv hk)
          (mem_le_foldl_max _ _ _ (List.mem_map_of_mem _ hi))
      | table tbl =>
        rw [checkGE_succ_table hc] at h
        simp only [Bool.and_eq_true, decide_eq_true_eq] at h
        obtain ⟨hp, hall⟩ := h
        rw [if_neg hp]
        refine foldl_min_ge _ _ _ hv ?_
        intro x hx
        rcases List.mem_map.mp hx with ⟨j, hjm, rfl⟩
        have hone := List.all_eq_true.mp hall j hjm
        cases hl : tbl.lookup j with
        | none => rw [hl] at hone; cases hone
        | some k =>
          rw [hl] at hone
          exact ih _ _ _ _ hv hone

theorem checkLE_sound (root : Player) (fuel : Nat) :
    ∀ (board : Board) (player : Player) (v : Int) (s : Strat),
      -maxI32 ≤ v → checkLE root fuel board player v s = true →
      minimax root fuel board player ≤ v := by
  induction fuel with
  | zero =>
    intro board player v s hv h
    cases hc : classify board
    case Win w =>
      rw [checkLE_win hc] at h
      rw [minimax_win hc]
      exact of_decide_eq_true h
    case Tie =>
      rw [checkLE_tie hc] at h
      rw [minimax_tie hc]
      exact of_decide_eq_true h
    case InProgress =>
      rw [checkLE_zero_inProgress hc] at h
      rw [minimax_zero_inProgress hc]
      exact of_decide_eq_true h
  | succ n ih =>
    intro board player v s hv h
    cases hc : classify board
    case Win w =>
      rw [checkLE_win hc] at h
      rw [minimax_win hc]
      exact of_decide_eq_true h
    case Tie =>
      rw [checkLE_tie hc] at h
      rw [minimax_tie hc]
      exact of_decide_eq_true h
    case InProgress =>
      rw [minimax_inProgress hc,
        if_neg (fun hcon => (availableMoves_ne_nil hc) (List.isEmpty_iff.mp hcon))]
      cases s with
      | pick i k =>
        rw [checkLE_succ_pick hc] at h
        simp only [Bool.and_eq_true, decide_eq_true_eq] at h
        obtain ⟨⟨hp, hi⟩, hk⟩ := h
        rw [if_neg hp]
        exact le_trans (foldl_min_le_mem _ _ _ (List.mem_map_of_mem _ hi))
          (ih _ _ _ _ hv hk)
      | table tbl =>
        rw [checkLE_succ_table hc] at h
        simp only [Bool.and_eq_true, decide_eq_true_eq] at h
        obtain ⟨hp, hall⟩ := h
        rw [if_pos hp]
        refine foldl_max_le _ _ _ hv ?_
        intro x hx
        rcases List.mem_map.mp hx with ⟨j, hjm, rfl⟩
        have hone := List.all_eq_true.mp hall j hjm
        cases hl : tbl.lookup j with
        | none => rw [hl] at hone; cases hone
        | some k =>
          rw [hl] at hone
          exact ih _ _ _ _ hv hone

set_option maxRecDepth 10000 in
set_option maxHeartbeats 4000000 in
theorem certGE_checks :
    checkGE Player.X 9 (List.replicate 9 Cell.Empty) Player.X 0 certGE = true := by
  decide

set_option maxRecDepth 10000 in
set_option maxHeartbeats 4000000 in
theorem certLE_checks :
    checkLE Player.X 9 (List.replicate 9 Cell.Empty) Player.X 0 certLE = true := by
  decide

/-- The game-theoretic value of the empty board is a draw. -/
theorem empty_board_value :
    minimax Player.X 9 (List.replicate 9 Cell.Empty) Player.X = 0 := by
  apply le_antisymm
  · exact checkLE_sound Player.X 9 _ _ _ certLE (by unfold maxI32; decide) certLE_checks
  · exact checkGE_sound Player.X 9 _ _ _ certGE (by unfold maxI32; decide) certGE_checks

/-! ## Self-play: optimal play for both sides from a value-0 position ties -/

theorem selfPlay_tie :
    ∀ (n : Nat) (e : GameEngine), e.board.length = 9 → e.ai_enabled = true →
      emptyCount e.board ≤ n →
      (check_state e = GameState.InProgress →
        minimax e.current_player 9 e.board e.current_player = 0) →
      (check_state e ≠ GameState.InProgress → check_state e = GameState.Tie) →
      check_state (selfPlayAux n e) = GameState.Tie := by
  intro n
  induction n with
  | zero =>
    intro e h9 hai hec hval htie
    have hfull : boardFull e.board = true :=
      boardFull_of_emptyCount_zero (Nat.le_zero.mp hec)
    exact htie (classify_ne_inProgress_of_full hfull)
  | succ n ih =>
    intro e h9 hai hec hval htie
    by_cases hip : check_state e = GameState.InProgress
    · rcases get_best_move_spec h9 hai hip with ⟨j, hj, hj9, hje, _, _⟩
      have hstep : selfPlayAux (n + 1) e = selfPlayAux n (make_move e j).2 := by
        simp [selfPlayAux, hj]
      rw [hstep, make_move_success hj9 hje]
      have hsc : moveScore e j = 0 := by
        rw [get_best_move_score h9 hai hip hj, hval hip]
      have hjlen : j < e.board.length := by omega
      have hcp := emptyCount_place (p := e.current_player) hjlen hje
      apply ih
      · show (place e.board j e.current_player).length = 9
        rw [length_place, h9]
      · exact hai
      · show emptyCount (place e.board j e.current_player) ≤ n
        omega
      · intro hip2
        show minimax e.current_player.opponent 9
          (place e.board j e.current_player) e.current_player.opponent = 0
        rw [minimax_opponent]
        have hms : minimax e.current_player 9
            (place e.board j e.current_player) e.current_player.opponent = 0 := hsc
        rw [hms]
        rfl
      · intro hnip2
        cases hc2 : classify (place e.board j e.current_player) with
        | Win w =>
          exfalso
          have hterm : moveScore e j = if w = e.current_player then 10 else -10 :=
            minimax_win hc2
          rw [hsc] at hterm
          by_cases hw : w = e.current_player
          · rw [if_pos hw] at hterm; exact absurd hterm (by decide)
          · rw [if_neg hw] at hterm; exact absurd hterm (by decide)
        | Tie => exact hc2
        | InProgress => exact absurd hc2 hnip2
    · have hnone : get_best_move e = none := get_best_move_none_of (Or.inr hip)
      have hstep : selfPlayAux (n + 1) e = e := by simp [selfPlayAux, hnone]
      rw [hstep]
      exact htie hip

/-! ## Characterization of the board classifier -/

theorem lineWinner_eq_some_iff (c1 c2 c3 : Cell) (p : Player) :
    lineWinner c1 c2 c3 = some p ↔
      (c1 = markOf p ∧ c2 = markOf p ∧ c3 = markOf p) := by
  cases c1 <;> cases c2 <;> cases c3 <;> cases p <;> decide

theorem lineWinner_eq_none_iff (c1 c2 c3 : Cell) :
    lineWinner c1 c2 c3 = none ↔
      ∀ p : Player, ¬(c1 = markOf p ∧ c2 = markOf p ∧ c3 = markOf p) := by
  constructor
  · intro h p
    cases p <;> revert h <;> cases c1 <;> cases c2 <;> cases c3 <;> decide
  · intro h
    have hX := h Player.X
    have hO := h Player.O
    revert hX hO
    cases c1 <;> cases c2 <;> cases c3 <;> decide

theorem hasWin_both_of_ne {board : Board} {p q : Player} (hne : q ≠ p)
    (hp : hasWin board p) (hq : hasWin board q) :
    hasWin board Player.X ∧ hasWin board Player.O := by
  cases p <;> cases q
  · exact absurd rfl hne
  · exact ⟨hp, hq⟩
  · exact ⟨hq, hp⟩
  · exact absurd rfl hne

theorem boardFull_iff {board : Board} (h9 : board.length = 9) :
    boardFull board = true ↔ ∀ i, i < 9 → getCell board i ≠ Cell.Empty := by
  unfold boardFull
  rw [Bool.not_eq_true', List.any_eq_false]
  constructor
  · intro h i hi
    have hlt : i < board.length := by omega
    rw [getCell_eq_getElem hlt]
    have hc := h board[i] (List.getElem_mem hlt)
    simpa using hc
  · intro h c hc
    rcases List.mem_iff_getElem.mp hc with ⟨i, hlt, rfl⟩
    have hc2 := h i (by omega)
    rw [getCell_eq_getElem hlt] at hc2
    simpa using hc2

theorem findSome?_lineWinner_eq_none_iff {board : Board} :
    winning_combinations.findSome? (fun l =>
        lineWinner (getCell board l.1) (getCell board l.2.1) (getCell board l.2.2)) =
      none ↔ ∀ p, ¬ hasWin board p := by
  rw [List.findSome?_eq_none_iff]
  constructor
  · rintro h p ⟨l, hl, hall⟩
    have := h l hl
    rw [lineWinner_eq_none_iff] at this
    exact this p hall
  · intro h l hl
    rw [lineWinner_eq_none_iff]
    intro p hall
    exact h p ⟨l, hl, hall⟩

theorem classify_of_none {board : Board}
    (hf : winning_combinations.findSome? (fun l =>
        lineWinner (getCell board l.1) (getCell board l.2.1) (getCell board l.2.2)) =
      none) :
    classify board =
      if boardFull board then GameState.Tie else GameState.InProgress := by
  unfold classify
  rw [hf]

theorem classify_of_some {board : Board} {q : Player}
    (hf : winning_combinations.findSome? (fun l =>
        lineWinner (getCell board l.1) (getCell board l.2.1) (getCell board l.2.2)) =
      some q) :
    classify board = GameState.Win q := by
  unfold classify
  rw [hf]

theorem classify_win_iff {board : Board} (p : Player)
    (hx : ¬(hasWin board Player.X ∧ hasWin board Player.O)) :
    classify board = GameState.Win p ↔ hasWin board p := by
  constructor
  · intro h
    cases hf : winning_combinations.findSome? (fun l =>
        lineWinner (getCell board l.1) (getCell board l.2.1) (getCell board l.2.2)) with
    | none =>
      rw [classify_of_none hf] at h
      by_cases hb : boardFull board = true
      · rw [if_pos hb] at h; cases h
      · rw [if_neg hb] at h; cases h
    | some q =>
      rw [classify_of_some hf] at h
      have hq : q = p := by injection h
      subst hq
      rcases List.exists_of_findSome?_eq_some hf with ⟨l, hl, hwl⟩
      rw [lineWinner_eq_some_iff] at hwl
      exact ⟨l, hl, hwl⟩
  · intro hw
    cases hf : winning_combinations.findSome? (fun l =>
        lineWinner (getCell board l.1) (getCell board l.2.1) (getCell board l.2.2)) with
    | none =>
      exfalso
      exact (findSome?_lineWinner_eq_none_iff.mp hf) p hw
    | some q =>
      have hq : hasWin board q := by
        rcases List.exists_of_findSome?_eq_some hf with ⟨l, hl, hwl⟩
        rw [lineWinner_eq_some_iff] at hwl
        exact ⟨l, hl, hwl⟩
      by_cases hqp : q = p
      · subst hqp
        exact classify_of_some hf
      · exact absurd (hasWin_both_of_ne hqp hw hq) hx

theorem classify_tie_iff {board : Board} (h9 : board.length = 9) :
    classify board = GameState.Tie ↔
      ((∀ i, i < 9 → getCell board i ≠ Cell.Empty) ∧ ∀ p, ¬ hasWin board p) := by
  constructor
  · intro h
    cases hf : winning_combinations.findSome? (fun l =>
        lineWinner (getCell board l.1) (getCell board l.2.1) (getCell board l.2.2)) with
    | none =>
      by_cases hb : boardFull board = true
      · exact ⟨(boardFull_iff h9).mp hb, findSome?_lineWinner_eq_none_iff.mp hf⟩
      · rw [classify_of_none hf, if_neg hb] at h
        cases h
    | some q =>
      rw [classify_of_some hf] at h
      cases h
  · rintro ⟨hfull, hnw⟩
    rw [classify_of_none (findSome?_lineWinner_eq_none_iff.mpr hnw),
      if_pos ((boardFull_iff h9).mpr hfull)]

theorem classify_inProgress_iff {board : Board} (h9 : board.length = 9) :
    classify board = GameState.InProgress ↔
      ((∃ i, i < 9 ∧ getCell board i = Cell.Empty) ∧ ∀ p, ¬ hasWin board p) := by
  constructor
  · intro h
    cases hf : winning_combinations.findSome? (fun l =>
        lineWinner (getCell board l.1) (getCell board l.2.1) (getCell board l.2.2)) with
    | none =>
      by_cases hb : boardFull board = true
      · rw [classify_of_none hf, if_pos hb] at h
        cases h
      · refine ⟨?_, findSome?_lineWinner_eq_none_iff.mp hf⟩
        by_contra hcon
        push_neg at hcon
        exact hb ((boardFull_iff h9).mpr (fun i hi he => hcon i hi he))
    | some q =>
      rw [classify_of_some hf] at h
      cases h
  · rintro ⟨⟨i, hi, hemp⟩, hnw⟩
    rw [classify_of_none (findSome?_lineWinner_eq_none_iff.mpr hnw)]
    rw [if_neg (fun hb => ((boardFull_iff h9).mp hb) i hi hemp)]

/-! ## The explicit panic model agrees with the total classifier -/

theorem lineOutcome_eq (c1 c2 c3 : Cell) :
    lineOutcome c1 c2 c3 = (lineWinner c1 c2 c3).map some := by
  cases c1 <;> cases c2 <;> cases c3 <;> rfl

theorem findSome?_map_some {α β : Type} (f : α → Option β) (l : List α) :
    l.findSome? (fun a => (f a).map some) = (l.findSome? f).map some := by
  induction l with
  | nil => rfl
  | cons a as ih =>
    cases hf : f a with
    | none => simp [List.findSome?_cons, hf, ih]
    | some b => simp [List.findSome?_cons, hf]

/-! ## The claims -/

/-- Claim C1: the move returned by `get_best_move` never newly allows the
opponent to force a win: from any 9-cell in-progress position whose mover is
not already lost (game value ≠ -10, i.e. the opponent cannot yet force a win),
the position after the returned move has value ≠ +10 for the opponent.  In
particular, self-play with `get_best_move` for both sides from the fresh
engine ends in `GameState.Tie`. -/
theorem c1_best_move_never_loses :
    (∀ (b : Board) (p : Player) (i : Nat), b.length = 9 →
      classify b = GameState.InProgress →
      minimax p 9 b p ≠ -10 →
      get_best_move ⟨b, p, true⟩ = some i →
      minimax p.opponent 9 (place b i p) p.opponent ≠ 10) ∧
    check_state (selfPlayAux 9 GameEngine.new) = GameState.Tie := by
  constructor
  · intro b p i h9 hip hnl hgb
    have h9e : (GameEngine.mk b p true).board.length = 9 := h9
    have hipe : check_state ⟨b, p, true⟩ = GameState.InProgress := hip
    have hsc := get_best_move_score h9e rfl hipe hgb
    intro hcon
    rw [minimax_opponent] at hcon
    have hms : minimax p 9 (place b i p) p.opponent = minimax p 9 b p := hsc
    rw [hms] at hcon
    apply hnl
    omega
  · apply selfPlay_tie 9 GameEngine.new
    · decide
    · rfl
    · decide
    · intro _
      exact empty_board_value
    · intro hn
      exact absurd (by decide : check_state GameEngine.new = GameState.InProgress) hn

theorem c1_witness :
    (boardA.length = 9 ∧ classify boardA = GameState.InProgress ∧
      minimax Player.O 9 boardA Player.O ≠ -10 ∧
      get_best_move ⟨boardA, Player.O, true⟩ = some 6) ∧
    minimax Player.O.opponent 9 (place boardA 6 Player.O) Player.O.opponent ≠ 10 :=
  ⟨⟨by decide, by decide, by decide, by decide⟩,
    c1_best_move_never_loses.1 boardA Player.O 6 (by decide) (by decide)
      (by decide) (by decide)⟩

/-- Claim C2: alpha-beta pruning is a pure optimization: `get_best_move`
returns the same index as the same loop run with plain (unpruned) minimax
scores, and on the full window the pruned search returns exactly the plain
minimax score, for every 9-cell board and player. -/
theorem c2_pruning_equivalence :
    (∀ e : GameEngine, e.board.length = 9 →
      get_best_move e = get_best_move_unpruned e) ∧
    (∀ (root : Player) (board : Board) (player : Player), board.length = 9 →
      minimax_with_pruning root 9 board player (-maxI32) maxI32 =
        minimax root 9 board player) := by
  constructor
  · intro e h9
    unfold get_best_move get_best_move_unpruned
    by_cases hcond : (!e.ai_enabled || is_over e) = true
    · rw [if_pos hcond, if_pos hcond]
    · rw [if_neg hcond, if_neg hcond]
      exact bestLoop_eq_unpruned e h9 _ _ _
  · intro root board player h9
    exact mwp_full_window root (le_trans (emptyCount_le_length _) (le_of_eq h9))

theorem c2_witness :
    ((GameEngine.with_ai true).board.length = 9 ∧
      get_best_move (GameEngine.with_ai true) =
        get_best_move_unpruned (GameEngine.with_ai true)) ∧
    (boardA.length = 9 ∧
      minimax_with_pruning Player.X 9 boardA Player.O (-maxI32) maxI32 =
        minimax Player.X 9 boardA Player.O) :=
  ⟨⟨by decide, c2_pruning_equivalence.1 (GameEngine.with_ai true) (by decide)⟩,
    ⟨by decide, c2_pruning_equivalence.2 Player.X boardA Player.O (by decide)⟩⟩

/-- Claim C3 (amended): on a 9-cell board on which the two players do not both
have a completed winning triple, `classify` returns `Win p` iff some winning
triple is fully marked by `p`; it returns `Tie` iff the board is full with no
winning triple, and `InProgress` iff some cell is empty and there is no
winning triple.  (As stated over all 9-cell boards the claim fails: on a board
where both players have completed triples, the classifier returns the winner
of the first triple in table order, see the counterexample.) -/
theorem c3_classification :
    ∀ board : Board, board.length = 9 →
      ¬(hasWin board Player.X ∧ hasWin board Player.O) →
      (∀ p, classify board = GameState.Win p ↔ hasWin board p) ∧
      (classify board = GameState.Tie ↔
        ((∀ i, i < 9 → getCell board i ≠ Cell.Empty) ∧ ∀ p, ¬ hasWin board p)) ∧
      (classify board = GameState.InProgress ↔
        ((∃ i, i < 9 ∧ getCell board i = Cell.Empty) ∧ ∀ p, ¬ hasWin board p)) :=
  fun _ h9 hx =>
    ⟨fun p => classify_win_iff p hx, classify_tie_iff h9, classify_inProgress_iff h9⟩

/-- Claim C3, counterexample to the unamended claim: on the (unreachable)
board whose top row is all X and middle row all O, player O has a completed
winning triple, yet `classify` does not return `Win O` (it returns `Win X`,
the first winning triple in table order), refuting the stated iff. -/
theorem c3_counterexample :
    hasWin [Cell.X, Cell.X, Cell.X, Cell.O, Cell.O, Cell.O,
        Cell.Empty, Cell.Empty, Cell.Empty] Player.O ∧
    classify [Cell.X, Cell.X, Cell.X, Cell.O, Cell.O, Cell.O,
        Cell.Empty, Cell.Empty, Cell.Empty] ≠ GameState.Win Player.O := by
  decide

theorem c3_witness :
    boardTie.length = 9 ∧ ¬(hasWin boardTie Player.X ∧ hasWin boardTie Player.O) ∧
    (classify boardTie = GameState.Tie ↔
      ((∀ i, i < 9 → getCell boardTie i ≠ Cell.Empty) ∧ ∀ p, ¬ hasWin boardTie p)) :=
  ⟨by decide, by decide, (c3_classification boardTie (by decide) (by decide)).2.1⟩

/-- Claim C4: `make_move` fails with `OutOfBounds` exactly on indices outside
[0,9) (this check first), fails with `CellOccupied` exactly on in-range
occupied cells, and on any error leaves the engine completely unchanged. -/
theorem c4_move_validation :
    ∀ (e : GameEngine) (i : Nat),
      ((make_move e i).1 = some MoveError.OutOfBounds ↔ 9 ≤ i) ∧
      ((make_move e i).1 = some MoveError.CellOccupied ↔
        (i < 9 ∧ getCell e.board i ≠ Cell.Empty)) ∧
      (∀ err, (make_move e i).1 = some err → (make_move e i).2 = e) := by
  intro e i
  unfold make_move
  by_cases h1 : 9 ≤ i
  · rw [if_pos h1]
    refine ⟨⟨fun _ => h1, fun _ => rfl⟩, ⟨?_, ?_⟩, fun err _ => rfl⟩
    · intro hcon
      exact absurd (Option.some.inj hcon) (by decide)
    · rintro ⟨hlt, _⟩
      exact absurd h1 (by omega)
  · rw [if_neg h1]
    by_cases h2 : getCell e.board i ≠ Cell.Empty
    · rw [if_pos h2]
      refine ⟨⟨?_, ?_⟩, ⟨fun _ => ⟨by omega, h2⟩, fun _ => rfl⟩, fun err _ => rfl⟩
      · intro hcon
        exact absurd (Option.some.inj hcon) (by decide)
      · intro hge
        exact absurd hge h1
    · rw [if_neg h2]
      refine ⟨⟨?_, ?_⟩, ⟨?_, ?_⟩, ?_⟩
      · intro hcon
        exact Option.noConfusion hcon
      · intro hge
        exact absurd hge h1
      · intro hcon
        exact Option.noConfusion hcon
      · rintro ⟨_, hocc⟩
        exact absurd hocc h2
      · intro err hcon
        exact Option.noConfusion hcon

theorem c4_witness :
    (make_move GameEngine.new 9).1 = some MoveError.OutOfBounds ∧
    (make_move GameEngine.new 9).2 = GameEngine.new :=
  ⟨(c4_move_validation GameEngine.new 9).1.mpr (by decide),
    (c4_move_validation GameEngine.new 9).2.2 MoveError.OutOfBounds
      ((c4_move_validation GameEngine.new 9).1.mpr (by decide))⟩

/-- Claim C5: a successful `make_move` marks exactly the requested cell with
the current player's mark, leaves the other cells and the AI flag unchanged,
and flips the player to move; consequently along any run of accepted moves
from a fresh engine the player to move alternates X, O, X, ... -/
theorem c5_success_frame_and_alternation :
    (∀ (e : GameEngine) (i : Nat), e.board.length = 9 → i < 9 →
      getCell e.board i = Cell.Empty →
      (make_move e i).1 = none ∧
      getCell (make_move e i).2.board i = markOf e.current_player ∧
      (∀ k, k ≠ i → getCell (make_move e i).2.board k = getCell e.board k) ∧
      (make_move e i).2.current_player = e.current_player.opponent ∧
      (make_move e i).2.ai_enabled = e.ai_enabled) ∧
    (∀ (ms : List Nat) (e2 : GameEngine), runMoves GameEngine.new ms = some e2 →
      e2.current_player = if ms.length % 2 = 0 then Player.X else Player.O) := by
  constructor
  · intro e i h9 hi hemp
    rw [make_move_success hi hemp]
    refine ⟨rfl, ?_, ?_, rfl, rfl⟩
    · show getCell (place e.board i e.current_player) i = markOf e.current_player
      unfold place getCell
      rw [List.getD_eq_getElem?_getD, List.getElem?_set_self (by omega)]
      rfl
    · intro k hk
      show getCell (place e.board i e.current_player) k = getCell e.board k
      unfold place getCell
      rw [List.getD_eq_getElem?_getD, List.getD_eq_getElem?_getD,
        List.getElem?_set_ne (fun hcon => hk hcon.symm)]
  · intro ms e2 h
    have hpar := runMoves_parity ms GameEngine.new e2 h
    simpa [GameEngine.new, Player.opponent] using hpar

theorem c5_witness :
    ((make_move GameEngine.new 4).1 = none ∧
      getCell (make_move GameEngine.new 4).2.board 4 =
        markOf GameEngine.new.current_player ∧
      (∀ k, k ≠ 4 →
        getCell (make_move GameEngine.new 4).2.board k =
          getCell GameEngine.new.board k) ∧
      (make_move GameEngine.new 4).2.current_player =
        GameEngine.new.current_player.opponent ∧
      (make_move GameEngine.new 4).2.ai_enabled = GameEngine.new.ai_enabled) ∧
    (GameEngine.mk
        [Cell.X, Cell.Empty, Cell.Empty, Cell.Empty, Cell.O,
          Cell.Empty, Cell.Empty, Cell.Empty, Cell.Empty]
        Player.X true).current_player =
      if ([0, 4] : List Nat).length % 2 = 0 then Player.X else Player.O :=
  ⟨c5_success_frame_and_alternation.1 GameEngine.new 4 (by decide) (by decide)
      (by decide),
    c5_success_frame_and_alternation.2 [0, 4] _ (by decide)⟩

/-- Claim C6: on a 9-cell in-progress board with AI enabled, `get_best_move`
returns the lowest index among the empty cells of maximal minimax score: the
returned cell is empty, its score is greatest among all empty cells, and
every earlier empty cell scores strictly lower (the scan is index-ascending
and replaces the incumbent only on strict improvement). -/
theorem c6_lowest_index_among_best (e : GameEngine) (h9 : e.board.length = 9)
    (hai : e.ai_enabled = true) (hip : check_state e = GameState.InProgress) :
    ∃ j, get_best_move e = some j ∧ j < 9 ∧ getCell e.board j = Cell.Empty ∧
      (∀ i, i < 9 → getCell e.board i = Cell.Empty →
        moveScore e i ≤ moveScore e j) ∧
      (∀ i, i < j → getCell e.board i = Cell.Empty →
        moveScore e i < moveScore e j) :=
  get_best_move_spec h9 hai hip

theorem c6_witness :
    ∃ j, get_best_move ⟨boardA, Player.O, true⟩ = some j ∧ j < 9 ∧
      getCell boardA j = Cell.Empty ∧
      (∀ i, i < 9 → getCell boardA i = Cell.Empty →
        moveScore ⟨boardA, Player.O, true⟩ i ≤ moveScore ⟨boardA, Player.O, true⟩ j) ∧
      (∀ i, i < j → getCell boardA i = Cell.Empty →
        moveScore ⟨boardA, Player.O, true⟩ i < moveScore ⟨boardA, Player.O, true⟩ j) :=
  c6_lowest_index_among_best ⟨boardA, Player.O, true⟩ (by decide) (by decide)
    (by decide)

/-- Claim C7: whenever `get_best_move` returns `some i`, the index is in
[0,9), targets an empty cell, and applying it via `make_move` succeeds. -/
theorem c7_best_move_round_trip :
    ∀ (e : GameEngine) (i : Nat), get_best_move e = some i →
      i < 9 ∧ getCell e.board i = Cell.Empty ∧ (make_move e i).1 = none := by
  intro e i h
  unfold get_best_move at h
  by_cases hcond : (!e.ai_enabled || is_over e) = true
  · rw [if_pos hcond] at h
    cases h
  · rw [if_neg hcond] at h
    rcases bestLoop_some_mem e _ _ _ _ h with h1 | ⟨h1, h2⟩
    · cases h1
    · have hi9 : i < 9 := List.mem_range.mp h1
      exact ⟨hi9, h2, by rw [make_move_success hi9 h2]⟩

theorem c7_witness :
    get_best_move ⟨boardA, Player.O, true⟩ = some 6 ∧
    (6 < 9 ∧ getCell boardA 6 = Cell.Empty ∧
      (make_move ⟨boardA, Player.O, true⟩ 6).1 = none) :=
  ⟨by decide, c7_best_move_round_trip ⟨boardA, Player.O, true⟩ 6 (by decide)⟩

/-- Claim C8: at any board classified terminal, the search scores exactly +10
when the winner is the root of the search (the engine's current player), -10
when it is the other player, and 0 for a draw, for every fuel and window. -/
theorem c8_terminal_scores :
    ∀ (root : Player) (fuel : Nat) (board : Board) (player w : Player)
      (alpha beta : Int),
      (classify board = GameState.Win w →
        minimax_with_pruning root fuel board player alpha beta =
          if w = root then 10 else -10) ∧
      (classify board = GameState.Tie →
        minimax_with_pruning root fuel board player alpha beta = 0) :=
  fun _ _ _ _ _ _ _ => ⟨fun h => mwp_win h, fun h => mwp_tie h⟩

theorem c8_witness :
    (classify boardWinX = GameState.Win Player.X ∧
      minimax_with_pruning Player.X 5 boardWinX Player.O (-3) 7 =
        if Player.X = Player.X then 10 else -10) ∧
    (classify boardTie = GameState.Tie ∧
      minimax_with_pruning Player.O 4 boardTie Player.X (-2) 2 = 0) :=
  ⟨⟨by decide,
      (c8_terminal_scores Player.X 5 boardWinX Player.O Player.X (-3) 7).1
        (by decide)⟩,
    ⟨by decide,
      (c8_terminal_scores Player.O 4 boardTie Player.X Player.X (-2) 2).2
        (by decide)⟩⟩

/-- Claim C9: the `unreachable!()` arm of `check_board_state` is never
executed: modelling the panic as `none`, the classifier returns
`some (classify board)` on every board whatsoever, so classification is total
and never panics. -/
theorem c9_unreachable_arm_dead :
    ∀ board : Board, check_board_state board = some (classify board) := by
  intro board
  unfold check_board_state
  have hfun : (fun l : Nat × Nat × Nat =>
      lineOutcome (getCell board l.1) (getCell board l.2.1) (getCell board l.2.2)) =
      (fun l => (lineWinner (getCell board l.1) (getCell board l.2.1)
        (getCell board l.2.2)).map some) := by
    funext l
    exact lineOutcome_eq _ _ _
  rw [hfun, findSome?_map_some]
  cases hf : winning_combinations.findSome? (fun l =>
      lineWinner (getCell board l.1) (getCell board l.2.1) (getCell board l.2.2)) with
  | none =>
    rw [classify_of_none hf]
    by_cases hb : boardFull board = true
    · rw [if_pos hb, if_pos hb]
      rfl
    · rw [if_neg hb, if_neg hb]
      rfl
  | some q =>
    rw [classify_of_some hf]
    rfl

/-- Claim C10: `get_best_move` returns `none` exactly when the AI is disabled
or the game is over; in particular with AI enabled on an in-progress 9-cell
board it always returns `some` index. -/
theorem c10_none_exactly_when (e : GameEngine) (h9 : e.board.length = 9) :
    get_best_move e = none ↔
      (e.ai_enabled = false ∨ check_state e ≠ GameState.InProgress) := by
  constructor
  · intro h
    by_contra hcon
    push_neg at hcon
    obtain ⟨hai, hip⟩ := hcon
    have hai2 : e.ai_enabled = true := by
      cases hb : e.ai_enabled
      · exact absurd hb hai
      · rfl
    rcases get_best_move_spec h9 hai2 hip with ⟨j, hj, _⟩
    rw [hj] at h
    cases h
  · exact get_best_move_none_of

theorem c10_witness :
    (GameEngine.with_ai false).board.length = 9 ∧
    get_best_move (GameEngine.with_ai false) = none :=
  ⟨by decide,
    (c10_none_exactly_when (GameEngine.with_ai false) (by decide)).mpr
      (Or.inl rfl)⟩

end XO
